import Mathlib

/-!
Shallow embedding of the qemuctl repository (a Go host-side controller for
QEMU processes) together with proofs about the embedded code.

Each definition below is translated from a named Go source function; the
file/line references in the doc comments point at the source under scrutiny.
Go `int` is modelled as `Int`, Go slices as `List`, Go `nil`-able pointers as
`Option`, Go maps used as sets as `List` with membership, and Go functions
that can `panic` return `Option` (with `none` for the panic).
-/

namespace Qemuctl

/-! ## VM state model (state.go) -/

/-- `State` from state.go: the lifecycle state of a QEMU instance. -/
inductive State where
  | Unknown
  | Running
  | Paused
  | Shutdown
  | Crashed
  | Suspended
  | Prelaunch
  deriving DecidableEq, Repr

/-- `State.IsAlive` from state.go. -/
def State.IsAlive : State → Bool
  | .Running | .Paused | .Suspended | .Prelaunch => true
  | _ => false

/-- `parseQMPStatus` from state.go: maps a QMP status string to a `State`. -/
def parseQMPStatus (status : String) : State :=
  if status = "running" then .Running
  else if status = "paused" then .Paused
  else if status = "shutdown" then .Shutdown
  else if status = "suspended" then .Suspended
  else if status = "prelaunch" then .Prelaunch
  else if status = "inmigrate" then .Prelaunch
  else if status = "internal-error" ∨ status = "io-error" then .Crashed
  else .Unknown

/-! ## PCI slot allocator (config.go lines 516-567) -/

/-- `pciSlotAllocator` from config.go: `used` is the Go `map[int]bool`
viewed as the set of keys mapped to true. -/
structure pciSlotAllocator where
  nextSlot : Int
  used : List Int
  bus : String
  deriving Repr, DecidableEq

/-- `newPCISlotAllocator` from config.go lines 524-543: slot 0 reserved for the
root complex; for Q35 slots 1 and 2 additionally reserved; bus name per flag. -/
def newPCISlotAllocator (isQ35 : Bool) : pciSlotAllocator :=
  if isQ35 then
    { nextSlot := 0x3, used := [0, 0x1, 0x2], bus := "pcie.0" }
  else
    { nextSlot := 0x3, used := [0], bus := "pci.0" }

/-- The scan loop of `pciSlotAllocator.Alloc` (config.go lines 547-552),
with an explicit structural fuel so the kernel can evaluate it: while
`used[nextSlot]`, increment `nextSlot`, and panic (here: `none`) when the
incremented value exceeds `0x1f`.  Note the panic guard only runs inside the
loop body, so a starting value that is itself free is returned unchecked. -/
def allocLoop (used : List Int) : Int → Nat → Option Int
  | _, 0 => none
  | n, fuel + 1 =>
    if n ∈ used then
      if n + 1 > 0x1f then none
      else allocLoop used (n + 1) fuel
    else some n

/-- The scan loop of `pciSlotAllocator.Alloc` with its fuel instantiated:
`(32 - n).toNat + 1` bounds the loop's iteration count, since each iteration
increments `n` and the loop stops (panics) as soon as `n` exceeds `0x1f`.
`allocFind_unfold` below certifies that this definition satisfies exactly the
recurrence of the Go loop, so the fuel never runs out. -/
def allocFind (used : List Int) (n : Int) : Option Int :=
  allocLoop used n ((32 - n).toNat + 1)

/-- `allocFind` satisfies the recurrence of the Go scan loop
(config.go lines 547-552). -/
theorem allocFind_unfold (used : List Int) (n : Int) :
    allocFind used n =
      if n ∈ used then
        if n + 1 > 0x1f then none
        else allocFind used (n + 1)
      else some n := by
  show allocLoop used n ((32 - n).toNat + 1) = _
  rw [allocLoop]
  by_cases hmem : n ∈ used
  · simp only [hmem, if_true]
    by_cases hgt : n + 1 > 0x1f
    · simp [hgt]
    · have h32 : (32 - n).toNat = (32 - (n + 1)).toNat + 1 := by omega
      simp only [hgt, if_false]
      rw [h32]
      rfl
  · simp [hmem]

/-- `pciSlotAllocator.Alloc` (config.go lines 546-557), numeric form: returns
the allocated slot and the updated allocator, `none` on panic. -/
def pciSlotAllocator.AllocN (a : pciSlotAllocator) : Option (Int × pciSlotAllocator) :=
  match allocFind a.used a.nextSlot with
  | none => none
  | some s => some (s, { a with used := s :: a.used, nextSlot := s + 1 })

/-- Lower-case hex digits of a natural number, as produced by Go `%x`. -/
def hexOfNat (n : Nat) : String :=
  String.mk (Nat.toDigits 16 n)

/-- `pciSlotAllocator.Alloc` (config.go lines 546-557): formats the allocated
slot as `0x%x`. -/
def pciSlotAllocator.Alloc (a : pciSlotAllocator) : Option (String × pciSlotAllocator) :=
  (a.AllocN).map (fun p => ("0x" ++ hexOfNat p.1.toNat, p.2))

/-- `pciSlotAllocator.Reserve` from config.go lines 560-562. -/
def pciSlotAllocator.Reserve (a : pciSlotAllocator) (slot : Int) : pciSlotAllocator :=
  { a with used := slot :: a.used }

/-- `pciSlotAllocator.Bus` from config.go lines 565-567. -/
def pciSlotAllocator.Bus (a : pciSlotAllocator) : String :=
  a.bus

/-- Run `n` consecutive `Alloc` calls (numeric form), collecting the returned
slots; `none` if any call panics. -/
def allocRun : Nat → pciSlotAllocator → Option (List Int × pciSlotAllocator)
  | 0, a => some ([], a)
  | n + 1, a =>
    match a.AllocN with
    | none => none
    | some (s, a') =>
      match allocRun n a' with
      | none => none
      | some (l, a'') => some (s :: l, a'')

/-! ## JSON values and Go `json.Marshal` rendering

Several builders pass `map[string]any` literals to Go's `encoding/json`.
`json.Marshal` emits object keys in sorted (byte-lexicographic) order and
HTML-escapes `<`, `>`, `&`.  Objects are modelled as association lists whose
entries are written below in exactly that sorted key order, so rendering is a
plain structural traversal. -/

/-- A JSON value as produced by the Go builders: strings, booleans, integers,
objects (fields in `json.Marshal`'s sorted key order) and arrays. -/
inductive JValue where
  | jstr (s : String)
  | jbool (b : Bool)
  | jint (n : Int)
  | jobj (fields : List (String × JValue))
  | jarr (xs : List JValue)
  deriving Repr

/-- Escape one character the way Go `encoding/json` does (HTML escaping on). -/
def jsonEscapeChar (c : Char) : String :=
  if c = '"' then "\\\""
  else if c = '\\' then "\\\\"
  else if c = '\n' then "\\n"
  else if c = '\r' then "\\r"
  else if c = '\t' then "\\t"
  else if c.toNat < 0x20 then
    "\\u00" ++ String.mk [Nat.digitChar (c.toNat / 16), Nat.digitChar (c.toNat % 16)]
  else if c = '<' then "\\u003c"
  else if c = '>' then "\\u003e"
  else if c = '&' then "\\u0026"
  else if c.toNat = 0x2028 then "\\u2028"
  else if c.toNat = 0x2029 then "\\u2029"
  else String.mk [c]

/-- Escape a string the way Go `encoding/json` does. -/
def jsonEscape (s : String) : String :=
  String.join (s.data.map jsonEscapeChar)

mutual

/-- Render a `JValue` to the string Go `json.Marshal` produces (given that
object fields are stored in sorted key order). -/
def renderJValue : JValue → String
  | .jstr s => "\"" ++ jsonEscape s ++ "\""
  | .jbool true => "true"
  | .jbool false => "false"
  | .jint n => toString n
  | .jobj fs => "\x7b" ++ renderJFields fs ++ "\x7d"
  | .jarr xs => "[" ++ renderJElems xs ++ "]"

/-- Render object fields, comma-separated. -/
def renderJFields : List (String × JValue) → String
  | [] => ""
  | [(k, v)] => "\"" ++ jsonEscape k ++ "\":" ++ renderJValue v
  | (k, v) :: f :: fs =>
    "\"" ++ jsonEscape k ++ "\":" ++ renderJValue v ++ "," ++ renderJFields (f :: fs)

/-- Render array elements, comma-separated. -/
def renderJElems : List JValue → String
  | [] => ""
  | [v] => renderJValue v
  | v :: w :: vs => renderJValue v ++ "," ++ renderJElems (w :: vs)

end

/-- Go `json.Marshal` applied to a `map[string]any` modelled as an association
list already in sorted key order. -/
def jsonMarshal (fields : List (String × JValue)) : String :=
  renderJValue (.jobj fields)

/-! ## Configuration structures (config.go, builder.go)

Go struct fields named `Type` are called `Typ` here (`Type` is reserved in
Lean); all other field names match the source. -/

/-- `MachineConfig` from config.go. -/
structure MachineConfig where
  Typ : String := ""
  Accel : String := ""
  USB : Option Bool := none
  DumpGuestCore : Option Bool := none
  Pflash0 : String := ""
  Pflash1 : String := ""
  deriving Repr, DecidableEq

/-- `CPUConfig` from config.go. -/
structure CPUConfig where
  Model : String := ""
  Features : List String := []
  Sockets : Int := 0
  Cores : Int := 0
  Threads : Int := 0
  deriving Repr, DecidableEq

/-- `MemoryBackendConfig` from config.go. -/
structure MemoryBackendConfig where
  Typ : String := ""
  Path : String := ""
  Share : Bool := false
  Prealloc : Bool := false
  deriving Repr, DecidableEq

/-- `MemoryConfig` from config.go. -/
structure MemoryConfig where
  Size : Int := 0
  Backend : Option MemoryBackendConfig := none
  MemLock : String := ""
  deriving Repr, DecidableEq

/-- `EFIConfig` from config.go. -/
structure EFIConfig where
  Code : String := ""
  Vars : String := ""
  VarsTemplate : String := ""
  deriving Repr, DecidableEq

/-- `BootConfig` from config.go. -/
structure BootConfig where
  Order : String := ""
  Menu : Option Bool := none
  Strict : Bool := false
  Kernel : String := ""
  Initrd : String := ""
  Append : String := ""
  deriving Repr, DecidableEq

/-- `VNCConfig` from config.go. -/
structure VNCConfig where
  Listen : String := ""
  Password : String := ""
  PasswordSecret : String := ""
  Lossy : Bool := false
  AudioDev : String := ""
  Websocket : Int := 0
  deriving Repr, DecidableEq

/-- `SpiceDisplayConfig` from config.go. -/
structure SpiceDisplayConfig where
  Unix : Bool := false
  Port : Int := 0
  Password : String := ""
  PasswordSecret : String := ""
  DisableTicketing : Bool := false
  ImageCompression : String := ""
  JpegWanCompression : String := ""
  ZlibGlzWanCompression : String := ""
  PlaybackCompression : Bool := false
  SeamlessMigration : Bool := false
  DisableCopyPaste : Bool := false
  deriving Repr, DecidableEq

/-- `VideoConfig` from config.go. -/
structure VideoConfig where
  Typ : String := ""
  VgaMem : Int := 0
  Ram : Int := 0
  Vram : Int := 0
  MaxOutputs : Int := 0
  deriving Repr, DecidableEq

/-- `DisplayConfig` from config.go. -/
structure DisplayConfig where
  Typ : String := ""
  VNC : Option VNCConfig := none
  Spice : Option SpiceDisplayConfig := none
  Video : Option VideoConfig := none
  deriving Repr, DecidableEq

/-- `AudioConfig` from config.go. -/
structure AudioConfig where
  Backend : String := ""
  Device : String := ""
  Codec : String := ""
  deriving Repr, DecidableEq

/-- `SerialConfig` from config.go. -/
structure SerialConfig where
  Typ : String := ""
  Path : String := ""
  Server : Bool := false
  Wait : Bool := false
  Device : String := ""
  deriving Repr, DecidableEq

/-- `ChardevConfig` from config.go. -/
structure ChardevConfig where
  ID : String := ""
  Backend : String := ""
  Path : String := ""
  Server : Bool := false
  Wait : Bool := false
  Host : String := ""
  Port : Int := 0
  Reconnect : Int := 0
  Name : String := ""
  deriving Repr, DecidableEq

/-- `VirtioSerialPortConfig` from config.go. -/
structure VirtioSerialPortConfig where
  Chardev : String := ""
  Name : String := ""
  Typ : String := ""
  deriving Repr, DecidableEq

/-- `VirtioSerialConfig` from config.go. -/
structure VirtioSerialConfig where
  MaxPorts : Int := 0
  Ports : List VirtioSerialPortConfig := []
  deriving Repr, DecidableEq

/-- `USBControllerConfig` from config.go. -/
structure USBControllerConfig where
  Typ : String := ""
  deriving Repr, DecidableEq

/-- `USBDeviceConfig` from config.go. -/
structure USBDeviceConfig where
  Typ : String := ""
  Chardev : String := ""
  deriving Repr, DecidableEq

/-- `BalloonConfig` from config.go. -/
structure BalloonConfig where
  Enabled : Bool := false
  deriving Repr, DecidableEq

/-- `SecretConfig` from config.go. -/
structure SecretConfig where
  ID : String := ""
  Data : String := ""
  File : String := ""
  Format : String := ""
  deriving Repr, DecidableEq

/-- `RTCConfig` from builder.go. -/
structure RTCConfig where
  Base : String := ""
  Clock : String := ""
  DriftFix : String := ""
  deriving Repr, DecidableEq

/-! ## Argument builders from config.go -/

/-- `buildMachineArgs` from config.go lines 570-608. -/
def buildMachineArgs (cfg : Option MachineConfig) : List String :=
  match cfg with
  | none => []
  | some cfg =>
    let parts : List String :=
      (if cfg.Typ ≠ "" then [cfg.Typ] else [])
      ++ (if cfg.Accel ≠ "" then ["accel=" ++ cfg.Accel] else [])
      ++ (match cfg.USB with
          | some true => ["usb=on"]
          | some false => ["usb=off"]
          | none => [])
      ++ (match cfg.DumpGuestCore with
          | some true => ["dump-guest-core=on"]
          | some false => ["dump-guest-core=off"]
          | none => [])
      ++ (if cfg.Pflash0 ≠ "" then ["pflash0=" ++ cfg.Pflash0] else [])
      ++ (if cfg.Pflash1 ≠ "" then ["pflash1=" ++ cfg.Pflash1] else [])
    if parts = [] then [] else ["-machine", String.intercalate "," parts]

/-- `buildCPUArgs` from config.go lines 611-652. -/
def buildCPUArgs (cfg : Option CPUConfig) (memory : Int) : List String :=
  match cfg with
  | none => []
  | some cfg =>
    let cpuPart : List String :=
      if cfg.Model ≠ "" then
        ["-cpu", cfg.Model ++ String.join (cfg.Features.map (fun f => "," ++ f))]
      else []
    let memPart : List String :=
      if memory > 0 then ["-m", toString memory] else []
    let sockets := if cfg.Sockets = 0 then 1 else cfg.Sockets
    let cores := if cfg.Cores = 0 then 1 else cfg.Cores
    let threads := if cfg.Threads = 0 then 1 else cfg.Threads
    let total := sockets * cores * threads
    let smpPart : List String :=
      if total > 1 then
        ["-smp", toString total ++ ",sockets=" ++ toString sockets
          ++ ",cores=" ++ toString cores ++ ",threads=" ++ toString threads]
      else []
    cpuPart ++ memPart ++ smpPart

/-- `buildVNCArgs` from config.go lines 655-687. -/
def buildVNCArgs (cfg : Option VNCConfig) : List String :=
  match cfg with
  | none => []
  | some cfg =>
    let listen := if cfg.Listen = "" then "none" else cfg.Listen
    let parts : List String :=
      [listen]
      ++ (if cfg.PasswordSecret ≠ "" then ["password-secret=" ++ cfg.PasswordSecret]
          else if cfg.Password ≠ "" then ["password=on"] else [])
      ++ (if cfg.Lossy then ["lossy=on"] else [])
      ++ (if cfg.AudioDev ≠ "" then ["audiodev=" ++ cfg.AudioDev] else [])
      ++ (if cfg.Websocket > 0 then ["websocket=" ++ toString cfg.Websocket] else [])
    ["-vnc", String.intercalate "," parts]

/-- `buildSpiceArgs` from config.go lines 690-742. -/
def buildSpiceArgs (cfg : Option SpiceDisplayConfig) : List String :=
  match cfg with
  | none => []
  | some cfg =>
    let parts : List String :=
      (if cfg.Unix then ["unix=on"]
       else if cfg.Port > 0 then ["port=" ++ toString cfg.Port] else [])
      ++ (if cfg.PasswordSecret ≠ "" then ["password-secret=" ++ cfg.PasswordSecret] else [])
      ++ (if cfg.DisableTicketing then ["disable-ticketing=on"] else [])
      ++ (if cfg.ImageCompression ≠ "" then ["image-compression=" ++ cfg.ImageCompression] else [])
      ++ (if cfg.JpegWanCompression ≠ "" then ["jpeg-wan-compression=" ++ cfg.JpegWanCompression] else [])
      ++ (if cfg.ZlibGlzWanCompression ≠ "" then ["zlib-glz-wan-compression=" ++ cfg.ZlibGlzWanCompression] else [])
      ++ (if cfg.PlaybackCompression then ["playback-compression=on"] else [])
      ++ (if cfg.SeamlessMigration then ["seamless-migration=on"] else [])
      ++ (if cfg.DisableCopyPaste then ["disable-copy-paste=on"] else ["disable-copy-paste=off"])
    if parts = [] then [] else ["-spice", String.intercalate "," parts]

/-- `buildChardevArgs` from config.go lines 745-777. -/
def buildChardevArgs (cfg : Option ChardevConfig) : List String :=
  match cfg with
  | none => []
  | some cfg =>
    if cfg.ID = "" then []
    else
      let parts : List String :=
        [cfg.Backend, "id=" ++ cfg.ID]
        ++ (if cfg.Path ≠ "" then ["path=" ++ cfg.Path] else [])
        ++ (if cfg.Host ≠ "" then ["host=" ++ cfg.Host] else [])
        ++ (if cfg.Port > 0 then ["port=" ++ toString cfg.Port] else [])
        ++ (if cfg.Server then ["server=on"] else [])
        ++ (if ¬ cfg.Wait then ["wait=off"] else [])
        ++ (if cfg.Reconnect > 0 then ["reconnect=" ++ toString cfg.Reconnect] else [])
        ++ (if cfg.Name ≠ "" then ["name=" ++ cfg.Name] else [])
      ["-chardev", String.intercalate "," parts]

/-- `buildSecretArgs` from config.go lines 780-800. -/
def buildSecretArgs (cfg : Option SecretConfig) : List String :=
  match cfg with
  | none => []
  | some cfg =>
    if cfg.ID = "" then []
    else
      let parts : List String :=
        ["secret", "id=" ++ cfg.ID]
        ++ (if cfg.Data ≠ "" then ["data=" ++ cfg.Data] else [])
        ++ (if cfg.File ≠ "" then ["file=" ++ cfg.File] else [])
        ++ (if cfg.Format ≠ "" then ["format=" ++ cfg.Format] else [])
      ["-object", String.intercalate "," parts]

/-! ## Disk backends and disk arguments (disk.go)

Each `map[string]any` option set is written as an association list in the
sorted key order that Go `json.Marshal` emits; conditional entries appear at
their sorted position. -/

/-- `FileDiskBackend` from disk.go. -/
structure FileDiskBackend where
  Path : String := ""
  Format : String := ""
  AutoReadOnly : Bool := false
  deriving Repr, DecidableEq

/-- `NBDDiskBackend` from disk.go. -/
structure NBDDiskBackend where
  SocketPath : String := ""
  Host : String := ""
  Port : Int := 0
  Export : String := ""
  TLS : Bool := false
  TLSCreds : String := ""
  deriving Repr, DecidableEq

/-- `RBDDiskBackend` from disk.go. -/
structure RBDDiskBackend where
  Pool : String := ""
  Image : String := ""
  Snapshot : String := ""
  Conf : String := ""
  User : String := ""
  KeySecret : String := ""
  AuthClientRequired : List String := []
  deriving Repr, DecidableEq

/-- `ISCSIDiskBackend` from disk.go. -/
structure ISCSIDiskBackend where
  Portal : String := ""
  Target : String := ""
  Lun : Int := 0
  User : String := ""
  PasswordSecret : String := ""
  InitiatorName : String := ""
  deriving Repr, DecidableEq

/-- The closed set of `DiskBackend` implementations in disk.go. -/
inductive DiskBackend where
  | file (b : FileDiskBackend)
  | nbd (b : NBDDiskBackend)
  | rbd (b : RBDDiskBackend)
  | iscsi (b : ISCSIDiskBackend)
  deriving Repr, DecidableEq

/-- The `Type()` methods of the disk backends in disk.go. -/
def DiskBackend.Typ : DiskBackend → String
  | .file _ => "file"
  | .nbd _ => "nbd"
  | .rbd _ => "rbd"
  | .iscsi _ => "iscsi"

/-- The `{"direct": true, "no-flush": false}` cache sub-object used by the
nbd, rbd and iscsi backends in disk.go. -/
def cacheDirectNoFlush : JValue :=
  .jobj [("direct", .jbool true), ("no-flush", .jbool false)]

/-- The file-layer options of `FileDiskBackend.BuildBlockdevArgs`
(disk.go lines 62-77): driver, filename, node-name, plus `auto-read-only`
when set (listed first: sorted key order). -/
def FileDiskBackend.fileOpts (f : FileDiskBackend) (id : String) : List (String × JValue) :=
  (if f.AutoReadOnly then [("auto-read-only", .jbool true)] else [])
  ++ [("driver", .jstr "file"),
      ("filename", .jstr f.Path),
      ("node-name", .jstr (id ++ "-file"))]

/-- The format-layer options of `FileDiskBackend.BuildBlockdevArgs`
(disk.go lines 79-89): format defaults to `raw`. -/
def FileDiskBackend.formatOpts (f : FileDiskBackend) (id : String) : List (String × JValue) :=
  [("driver", .jstr (if f.Format = "" then "raw" else f.Format)),
   ("file", .jstr (id ++ "-file")),
   ("node-name", .jstr (id ++ "-format"))]

/-- `FileDiskBackend.BuildBlockdevArgs` from disk.go lines 62-95. -/
def FileDiskBackend.BuildBlockdevArgs (f : FileDiskBackend) (id : String) : List String :=
  ["-blockdev", jsonMarshal (f.fileOpts id),
   "-blockdev", jsonMarshal (f.formatOpts id)]

/-- The NBD-layer options of `NBDDiskBackend.BuildBlockdevArgs`
(disk.go lines 124-159): driver and node-name from the literal, then the
conditional server / export / tls-creds entries and the cache sub-object,
all at their sorted key positions. -/
def NBDDiskBackend.nbdOpts (n : NBDDiskBackend) (id : String) : List (String × JValue) :=
  [("cache", cacheDirectNoFlush), ("driver", .jstr "nbd")]
  ++ (if n.Export ≠ "" then [("export", .jstr n.Export)] else [])
  ++ [("node-name", .jstr (id ++ "-nbd"))]
  ++ (if n.SocketPath ≠ "" then
        [("server", .jobj [("path", .jstr n.SocketPath), ("type", .jstr "unix")])]
      else if n.Host ≠ "" then
        [("server", .jobj ([("host", .jstr n.Host)]
          ++ (if n.Port > 0 then [("port", .jstr (toString n.Port))] else [])
          ++ [("type", .jstr "inet")]))]
      else [])
  ++ (if n.TLS then [("tls-creds", .jstr n.TLSCreds)] else [])

/-- The format-layer options of `NBDDiskBackend.BuildBlockdevArgs`
(disk.go lines 161-169): raw on top of the NBD node. -/
def NBDDiskBackend.formatOpts (_n : NBDDiskBackend) (id : String) : List (String × JValue) :=
  [("driver", .jstr "raw"),
   ("file", .jstr (id ++ "-nbd")),
   ("node-name", .jstr (id ++ "-format")),
   ("read-only", .jbool false)]

/-- `NBDDiskBackend.BuildBlockdevArgs` from disk.go lines 120-175. -/
def NBDDiskBackend.BuildBlockdevArgs (n : NBDDiskBackend) (id : String) : List String :=
  ["-blockdev", jsonMarshal (n.nbdOpts id),
   "-blockdev", jsonMarshal (n.formatOpts id)]

/-- The RBD-layer options of `RBDDiskBackend.BuildBlockdevArgs`
(disk.go lines 207-237), in sorted key order. -/
def RBDDiskBackend.rbdOpts (r : RBDDiskBackend) (id : String) : List (String × JValue) :=
  (if r.AuthClientRequired ≠ [] then
     [("auth-client-required", .jarr (r.AuthClientRequired.map .jstr))] else [])
  ++ [("cache", cacheDirectNoFlush)]
  ++ (if r.Conf ≠ "" then [("conf", .jstr r.Conf)] else [])
  ++ [("discard", .jstr "unmap"),
      ("driver", .jstr "rbd"),
      ("image", .jstr r.Image)]
  ++ (if r.KeySecret ≠ "" then [("key-secret", .jstr r.KeySecret)] else [])
  ++ [("node-name", .jstr (id ++ "-rbd")),
      ("pool", .jstr r.Pool)]
  ++ (if r.Snapshot ≠ "" then [("snapshot", .jstr r.Snapshot)] else [])
  ++ (if r.User ≠ "" then [("user", .jstr r.User)] else [])

/-- The format-layer options of `RBDDiskBackend.BuildBlockdevArgs`
(disk.go lines 239-247): raw on top of the RBD node. -/
def RBDDiskBackend.formatOpts (_r : RBDDiskBackend) (id : String) : List (String × JValue) :=
  [("driver", .jstr "raw"),
   ("file", .jstr (id ++ "-rbd")),
   ("node-name", .jstr (id ++ "-format")),
   ("read-only", .jbool false)]

/-- `RBDDiskBackend.BuildBlockdevArgs` from disk.go lines 203-253. -/
def RBDDiskBackend.BuildBlockdevArgs (r : RBDDiskBackend) (id : String) : List String :=
  ["-blockdev", jsonMarshal (r.rbdOpts id),
   "-blockdev", jsonMarshal (r.formatOpts id)]

/-- The iSCSI options of `ISCSIDiskBackend.BuildBlockdevArgs`
(disk.go lines 281-307), in sorted key order. -/
def ISCSIDiskBackend.iscsiOpts (i : ISCSIDiskBackend) (id : String) : List (String × JValue) :=
  [("cache", cacheDirectNoFlush),
   ("discard", .jstr "unmap"),
   ("driver", .jstr "iscsi")]
  ++ (if i.InitiatorName ≠ "" then [("initiator-name", .jstr i.InitiatorName)] else [])
  ++ [("lun", .jint i.Lun),
      ("node-name", .jstr (id ++ "-iscsi"))]
  ++ (if i.PasswordSecret ≠ "" then [("password-secret", .jstr i.PasswordSecret)] else [])
  ++ [("portal", .jstr i.Portal),
      ("target", .jstr i.Target),
      ("transport", .jstr "tcp")]
  ++ (if i.User ≠ "" then [("user", .jstr i.User)] else [])

/-- `ISCSIDiskBackend.BuildBlockdevArgs` from disk.go lines 278-313: a single
blockdev node, no format layer. -/
def ISCSIDiskBackend.BuildBlockdevArgs (i : ISCSIDiskBackend) (id : String) : List String :=
  ["-blockdev", jsonMarshal (i.iscsiOpts id)]

/-- Dispatch of `DiskBackend.BuildBlockdevArgs` over the closed backend set. -/
def DiskBackend.BuildBlockdevArgs : DiskBackend → String → List String
  | .file b, id => b.BuildBlockdevArgs id
  | .nbd b, id => b.BuildBlockdevArgs id
  | .rbd b, id => b.BuildBlockdevArgs id
  | .iscsi b, id => b.BuildBlockdevArgs id

/-- `ThrottleConfig` from disk.go (uint64 fields modelled as `Nat`). -/
structure ThrottleConfig where
  Group : String := ""
  BPS : Nat := 0
  BPSRead : Nat := 0
  BPSWrite : Nat := 0
  IOPS : Nat := 0
  IOPSRead : Nat := 0
  IOPSWrite : Nat := 0
  BPSMax : Nat := 0
  IOPSMax : Nat := 0
  BurstLength : Int := 0
  deriving Repr, DecidableEq

/-- `ThrottleConfig.BuildThrottleGroupArgs` from disk.go lines 349-388
(receiver is a possibly-nil pointer). -/
def ThrottleConfig.BuildThrottleGroupArgs (t : Option ThrottleConfig) : List String :=
  match t with
  | none => []
  | some t =>
    if t.Group = "" then []
    else
      let parts : List String :=
        ["throttle-group", "id=" ++ t.Group]
        ++ (if t.BPS > 0 then ["x-bps-total=" ++ toString t.BPS] else [])
        ++ (if t.BPSRead > 0 then ["x-bps-read=" ++ toString t.BPSRead] else [])
        ++ (if t.BPSWrite > 0 then ["x-bps-write=" ++ toString t.BPSWrite] else [])
        ++ (if t.IOPS > 0 then ["x-iops-total=" ++ toString t.IOPS] else [])
        ++ (if t.IOPSRead > 0 then ["x-iops-read=" ++ toString t.IOPSRead] else [])
        ++ (if t.IOPSWrite > 0 then ["x-iops-write=" ++ toString t.IOPSWrite] else [])
        ++ (if t.BPSMax > 0 then ["x-bps-total-max=" ++ toString t.BPSMax] else [])
        ++ (if t.IOPSMax > 0 then ["x-iops-total-max=" ++ toString t.IOPSMax] else [])
        ++ (if t.BurstLength > 0 then
              ["x-bps-total-max-length=" ++ toString t.BurstLength,
               "x-iops-total-max-length=" ++ toString t.BurstLength] else [])
      ["-object", String.intercalate "," parts]

/-- `ThrottleConfig.BuildThrottleBlockdevArgs` from disk.go lines 391-406
(options in sorted key order). -/
def ThrottleConfig.BuildThrottleBlockdevArgs
    (t : Option ThrottleConfig) (id fileNode : String) : List String :=
  match t with
  | none => []
  | some t =>
    if t.Group = "" then []
    else
      ["-blockdev", jsonMarshal
        [("driver", .jstr "throttle"),
         ("file", .jstr fileNode),
         ("node-name", .jstr id),
         ("throttle-group", .jstr t.Group)]]

/-- `DiskConfig` from disk.go. -/
structure DiskConfig where
  ID : String := ""
  Backend : Option DiskBackend := none
  Interface : String := ""
  Cache : String := ""
  Discard : String := ""
  ReadOnly : Bool := false
  BootIndex : Int := 0
  Throttle : Option ThrottleConfig := none
  Serial : String := ""
  deriving Repr, DecidableEq

/-- `CDROMConfig` from disk.go. -/
structure CDROMConfig where
  Path : String := ""
  BootIndex : Int := 0
  deriving Repr, DecidableEq

/-- The `cfg.Throttle != nil && cfg.Throttle.Group != ""` test from
`buildDiskArgs` (disk.go lines 431 and 449). -/
def throttleSet : Option ThrottleConfig → Bool
  | some t => t.Group ≠ ""
  | none => false

/-- The device-type switch of `buildDiskArgs` (disk.go lines 461-474). -/
def diskDeviceType (iface : String) : String :=
  if iface = "virtio" then "virtio-blk-pci"
  else if iface = "scsi" then "scsi-hd"
  else if iface = "ide" then "ide-hd"
  else if iface = "nvme" then "nvme"
  else "virtio-blk-pci"

/-- `buildDiskArgs` from disk.go lines 418-493.  The `*pciSlotAllocator`
parameter (nil-able, mutated in place) becomes an `Option` threaded through
the result; `none` overall models the allocator panic. -/
def buildDiskArgs (cfg : Option DiskConfig) (palloc : Option pciSlotAllocator) :
    Option (List String × Option pciSlotAllocator) :=
  match cfg with
  | none => some ([], palloc)
  | some cfg =>
    match cfg.Backend with
    | none => some ([], palloc)
    | some backend =>
      let id := if cfg.ID = "" then "drive0" else cfg.ID
      let throttleGroupArgs :=
        if throttleSet cfg.Throttle then ThrottleConfig.BuildThrottleGroupArgs cfg.Throttle
        else []
      let backendArgs := backend.BuildBlockdevArgs id
      let finalNode0 := if backend.Typ = "iscsi" then id ++ "-iscsi" else id ++ "-format"
      let throttleBlockdev :=
        if throttleSet cfg.Throttle then
          ThrottleConfig.BuildThrottleBlockdevArgs cfg.Throttle (id ++ "-throttle") finalNode0
        else []
      let finalNode := if throttleSet cfg.Throttle then id ++ "-throttle" else finalNode0
      let iface := if cfg.Interface = "" then "virtio" else cfg.Interface
      let deviceType := diskDeviceType iface
      let base := deviceType ++ ",drive=" ++ finalNode ++ ",id=" ++ id ++ "-device"
      let finish := fun (dev : String) (palloc' : Option pciSlotAllocator) =>
        let dev := dev
          ++ (if cfg.BootIndex > 0 then ",bootindex=" ++ toString cfg.BootIndex else "")
          ++ (if cfg.Serial ≠ "" then ",serial=" ++ cfg.Serial else "")
        some (throttleGroupArgs ++ backendArgs ++ throttleBlockdev ++ ["-device", dev],
          palloc')
      match palloc with
      | some al =>
        if iface = "virtio" ∨ iface = "nvme" then
          match al.Alloc with
          | none => none
          | some (addr, al') =>
            finish (base ++ ",bus=" ++ al.Bus ++ ",addr=" ++ addr) (some al')
        else finish base (some al)
      | none => finish base none

/-- `buildCDROMArgs` from disk.go lines 496-517. -/
def buildCDROMArgs (cfg : Option CDROMConfig) (index : Nat) (sataController : String) :
    List String :=
  match cfg with
  | none => []
  | some cfg =>
    if cfg.Path = "" then []
    else
      let id := "cdrom" ++ toString index
      let driveArg := "file=" ++ cfg.Path ++ ",format=raw,if=none,id=" ++ id
        ++ ",media=cdrom,readonly=on"
      let deviceArg := "ide-cd,bus=" ++ sataController ++ "." ++ toString index
        ++ ",drive=" ++ id ++ ",id=" ++ id ++ "-device"
        ++ (if cfg.BootIndex > 0 then ",bootindex=" ++ toString cfg.BootIndex else "")
      ["-drive", driveArg, "-device", deviceArg]

/-! ## Network backends and network arguments (network.go) -/

/-- `UserNetBackend` from network.go. -/
structure UserNetBackend where
  Hostfwd : List String := []
  Net : String := ""
  Host : String := ""
  DNS : String := ""
  DHCPStart : String := ""
  Restrict : Bool := false
  deriving Repr, DecidableEq

/-- `TapNetBackend` from network.go. -/
structure TapNetBackend where
  Ifname : String := ""
  Bridge : String := ""
  Script : String := ""
  DownScript : String := ""
  VHost : Bool := false
  Queues : Int := 0
  FD : Int := 0
  deriving Repr, DecidableEq

/-- `SocketNetBackend` from network.go. -/
structure SocketNetBackend where
  Path : String := ""
  Server : Bool := false
  Reconnect : Int := 0
  deriving Repr, DecidableEq

/-- `StreamNetBackend` from network.go. -/
structure StreamNetBackend where
  Path : String := ""
  Host : String := ""
  Port : Int := 0
  Server : Bool := false
  Reconnect : Int := 0
  deriving Repr, DecidableEq

/-- `VDENetBackend` from network.go. -/
structure VDENetBackend where
  Sock : String := ""
  Port : Int := 0
  Group : String := ""
  Mode : String := ""
  deriving Repr, DecidableEq

/-- `BridgeNetBackend` from network.go. -/
structure BridgeNetBackend where
  Bridge : String := ""
  Helper : String := ""
  deriving Repr, DecidableEq

/-- The closed set of `NetworkBackend` implementations in network.go. -/
inductive NetworkBackend where
  | user (b : UserNetBackend)
  | tap (b : TapNetBackend)
  | socket (b : SocketNetBackend)
  | stream (b : StreamNetBackend)
  | vde (b : VDENetBackend)
  | bridge (b : BridgeNetBackend)
  deriving Repr, DecidableEq

/-- The `Type()` methods of the network backends in network.go. -/
def NetworkBackend.Typ : NetworkBackend → String
  | .user _ => "user"
  | .tap _ => "tap"
  | .socket _ => "socket"
  | .stream _ => "stream"
  | .vde _ => "vde"
  | .bridge _ => "bridge"

/-- `UserNetBackend.BuildNetdevArgs` from network.go lines 58-83. -/
def UserNetBackend.BuildNetdevArgs (u : UserNetBackend) (id : String) : List String :=
  let parts : List String :=
    ["user", "id=" ++ id]
    ++ (if u.Net ≠ "" then ["net=" ++ u.Net] else [])
    ++ (if u.Host ≠ "" then ["host=" ++ u.Host] else [])
    ++ (if u.DNS ≠ "" then ["dns=" ++ u.DNS] else [])
    ++ (if u.DHCPStart ≠ "" then ["dhcpstart=" ++ u.DHCPStart] else [])
    ++ (if u.Restrict then ["restrict=on"] else [])
    ++ u.Hostfwd.map (fun fwd => "hostfwd=" ++ fwd)
  ["-netdev", String.intercalate "," parts]

/-- `TapNetBackend.BuildNetdevArgs` from network.go lines 111-139. -/
def TapNetBackend.BuildNetdevArgs (t : TapNetBackend) (id : String) : List String :=
  let parts : List String :=
    ["tap", "id=" ++ id]
    ++ (if t.Ifname ≠ "" then ["ifname=" ++ t.Ifname] else [])
    ++ (if t.Bridge ≠ "" then ["br=" ++ t.Bridge] else [])
    ++ (if t.Script ≠ "" then ["script=" ++ t.Script] else [])
    ++ (if t.DownScript ≠ "" then ["downscript=" ++ t.DownScript] else [])
    ++ (if t.VHost then ["vhost=on"] else [])
    ++ (if t.Queues > 1 then ["queues=" ++ toString t.Queues] else [])
    ++ (if t.FD > 0 then ["fd=" ++ toString t.FD] else [])
  ["-netdev", String.intercalate "," parts]

/-- `SocketNetBackend.BuildNetdevArgs` from network.go lines 155-169. -/
def SocketNetBackend.BuildNetdevArgs (s : SocketNetBackend) (id : String) : List String :=
  let parts : List String :=
    ["socket", "id=" ++ id]
    ++ (if s.Path ≠ "" then
          if s.Server then ["listen=" ++ s.Path] else ["connect=" ++ s.Path]
        else [])
  ["-netdev", String.intercalate "," parts]

/-- `StreamNetBackend.BuildNetdevArgs` from network.go lines 191-218. -/
def StreamNetBackend.BuildNetdevArgs (s : StreamNetBackend) (id : String) : List String :=
  let parts : List String :=
    ["stream", "id=" ++ id]
    ++ (if s.Server then ["server=on"] else ["server=off"])
    ++ (if s.Path ≠ "" then ["addr.type=unix", "addr.path=" ++ s.Path]
        else if s.Host ≠ "" then
          ["addr.type=inet", "addr.host=" ++ s.Host]
          ++ (if s.Port > 0 then ["addr.port=" ++ toString s.Port] else [])
        else [])
    ++ (if s.Reconnect > 0 ∧ ¬ s.Server then ["reconnect=" ++ toString s.Reconnect] else [])
  ["-netdev", String.intercalate "," parts]

/-- `VDENetBackend.BuildNetdevArgs` from network.go lines 237-256. -/
def VDENetBackend.BuildNetdevArgs (v : VDENetBackend) (id : String) : List String :=
  let parts : List String :=
    ["vde", "id=" ++ id]
    ++ (if v.Sock ≠ "" then ["sock=" ++ v.Sock] else [])
    ++ (if v.Port > 0 then ["port=" ++ toString v.Port] else [])
    ++ (if v.Group ≠ "" then ["group=" ++ v.Group] else [])
    ++ (if v.Mode ≠ "" then ["mode=" ++ v.Mode] else [])
  ["-netdev", String.intercalate "," parts]

/-- `BridgeNetBackend.BuildNetdevArgs` from network.go lines 269-282. -/
def BridgeNetBackend.BuildNetdevArgs (b : BridgeNetBackend) (id : String) : List String :=
  let parts : List String :=
    ["bridge", "id=" ++ id]
    ++ (if b.Bridge ≠ "" then ["br=" ++ b.Bridge] else [])
    ++ (if b.Helper ≠ "" then ["helper=" ++ b.Helper] else [])
  ["-netdev", String.intercalate "," parts]

/-- Dispatch of `NetworkBackend.BuildNetdevArgs` over the closed backend set. -/
def NetworkBackend.BuildNetdevArgs : NetworkBackend → String → List String
  | .user b, id => b.BuildNetdevArgs id
  | .tap b, id => b.BuildNetdevArgs id
  | .socket b, id => b.BuildNetdevArgs id
  | .stream b, id => b.BuildNetdevArgs id
  | .vde b, id => b.BuildNetdevArgs id
  | .bridge b, id => b.BuildNetdevArgs id

/-- `NetworkConfig` from network.go. -/
structure NetworkConfig where
  ID : String := ""
  Backend : Option NetworkBackend := none
  Model : String := ""
  MACAddr : String := ""
  BootIndex : Int := 0
  deriving Repr, DecidableEq

/-- `buildNetworkArgs` from network.go lines 285-326.  As for disks, the
nil-able, in-place-mutated `*pciSlotAllocator` becomes a threaded `Option`,
and `none` overall models the allocator panic. -/
def buildNetworkArgs (cfg : Option NetworkConfig) (palloc : Option pciSlotAllocator) :
    Option (List String × Option pciSlotAllocator) :=
  match cfg with
  | none => some ([], palloc)
  | some cfg =>
    match cfg.Backend with
    | none => some ([], palloc)
    | some backend =>
      let id := if cfg.ID = "" then "net0" else cfg.ID
      let netdevArgs := backend.BuildNetdevArgs id
      let model := if cfg.Model = "" then "virtio-net-pci" else cfg.Model
      let deviceParts : List String :=
        [model, "netdev=" ++ id, "id=" ++ id ++ "-device"]
        ++ (if cfg.MACAddr ≠ "" then ["mac=" ++ cfg.MACAddr] else [])
      let finish := fun (deviceParts : List String) (palloc' : Option pciSlotAllocator) =>
        let deviceParts := deviceParts
          ++ (if cfg.BootIndex > 0 then ["bootindex=" ++ toString cfg.BootIndex] else [])
        some (netdevArgs ++ ["-device", String.intercalate "," deviceParts], palloc')
      match palloc with
      | some al =>
        if model = "virtio-net-pci" ∨ model = "e1000" ∨ model = "e1000e" ∨ model = "rtl8139" then
          match al.Alloc with
          | none => none
          | some (addr, al') =>
            finish (deviceParts ++ ["bus=" ++ al.Bus, "addr=" ++ addr]) (some al')
        else finish deviceParts (some al)
      | none => finish deviceParts none

/-! ## Kernel-evaluable string helpers

The embeddings below need `strings.HasPrefix`, `strings.Split`,
`strings.TrimSuffix`, `strings.Contains` and slicing; they are defined over
the character list of the string so that concrete instances evaluate. -/

/-- Go `strings.HasPrefix`. -/
def goHasPrefix (s pre : String) : Bool :=
  pre.data.isPrefixOf s.data

/-- Go slice `s[n:]` (drop the first `n` characters). -/
def goDrop (s : String) (n : Nat) : String :=
  String.mk (s.data.drop n)

/-- The loop of `goSplit`: split a character list on a separator. -/
def goSplitAux (sep : Char) : List Char → List Char → List String
  | [], acc => [String.mk acc.reverse]
  | c :: rest, acc =>
    if c = sep then String.mk acc.reverse :: goSplitAux sep rest []
    else goSplitAux sep rest (c :: acc)

/-- Go `strings.Split` on a single-character separator. -/
def goSplit (s : String) (sep : Char) : List String :=
  goSplitAux sep s.data []


/-! ## The argument composer (builder.go)

Go's `VMBuilder` appends to a mutable `b.args` slice while threading the
mutable `b.pciAlloc`; each `build*` method below becomes a function that
returns the chunk of arguments it appends (together with the updated
allocator where the method allocates), and `Build` concatenates the chunks in
the method-call order of builder.go lines 134-173.  `none` models a PCI-slot
allocator panic.  Go `[]*T` element slices are modelled as lists of plain
structures (the sources deference the elements without nil checks or pass
them to builders that do their own nil check). -/

/-- `VMConfig` from builder.go. -/
structure VMConfig where
  Name : String := ""
  Arch : String := ""
  QemuPath : String := ""
  SocketDir : String := ""
  Machine : Option MachineConfig := none
  CPU : Option CPUConfig := none
  Memory : Option MemoryConfig := none
  EFI : Option EFIConfig := none
  Boot : Option BootConfig := none
  Disks : List DiskConfig := []
  CDROMs : List CDROMConfig := []
  Networks : List NetworkConfig := []
  Display : Option DisplayConfig := none
  Audio : Option AudioConfig := none
  Serials : List SerialConfig := []
  Chardevs : List ChardevConfig := []
  VirtioSerial : Option VirtioSerialConfig := none
  USB : Option USBControllerConfig := none
  USBDevices : List USBDeviceConfig := []
  Balloon : Option BalloonConfig := none
  RTC : Option RTCConfig := none
  Secrets : List SecretConfig := []
  NoDefaults : Bool := false
  ExtraArgs : List String := []
  deriving Repr, DecidableEq

/-- The Q35 determination of `NewVMBuilder` (builder.go lines 117-124). -/
def vmIsQ35 (cfg : VMConfig) : Bool :=
  match cfg.Machine with
  | some m => goHasPrefix m.Typ "q35"
  | none => cfg.Arch = "" ∨ cfg.Arch = "amd64" ∨ cfg.Arch = "386"

/-- `VMBuilder.buildMachine` from builder.go lines 176-192. -/
def buildMachineChunk (cfg : VMConfig) : List String :=
  match cfg.Machine with
  | none =>
    let machineType :=
      if cfg.Arch = "" ∨ cfg.Arch = "amd64" ∨ cfg.Arch = "386" then "q35" else ""
    if machineType ≠ "" then ["-machine", machineType ++ ",accel=kvm"] else []
  | some m => buildMachineArgs (some m)

/-- `VMBuilder.buildEFI` from builder.go lines 195-241 (blockdev options in
sorted key order). -/
def buildEFIChunk (cfg : VMConfig) : List String :=
  match cfg.EFI with
  | none => []
  | some e =>
    if e.Code = "" then []
    else
      ["-blockdev", jsonMarshal
         [("driver", .jstr "file"), ("filename", .jstr e.Code),
          ("node-name", .jstr "pflash0-file"), ("read-only", .jbool true)],
       "-blockdev", jsonMarshal
         [("driver", .jstr "raw"), ("file", .jstr "pflash0-file"),
          ("node-name", .jstr "pflash0"), ("read-only", .jbool true)]]
      ++ (if e.Vars ≠ "" then
            ["-blockdev", jsonMarshal
               [("driver", .jstr "file"), ("filename", .jstr e.Vars),
                ("node-name", .jstr "pflash1-file")],
             "-blockdev", jsonMarshal
               [("driver", .jstr "raw"), ("file", .jstr "pflash1-file"),
                ("node-name", .jstr "pflash1")]]
          else [])

/-- `VMBuilder.buildCPU` from builder.go lines 244-260. -/
def buildCPUChunk (cfg : VMConfig) : List String :=
  let memSize : Int :=
    match cfg.Memory with
    | some m => if m.Size > 0 then m.Size else 512
    | none => 512
  match cfg.CPU with
  | none => ["-cpu", "host", "-m", toString memSize]
  | some c => buildCPUArgs (some c) memSize

/-- `VMBuilder.buildMemory` from builder.go lines 263-305. -/
def buildMemoryChunk (cfg : VMConfig) : List String :=
  match cfg.Memory with
  | none => []
  | some m =>
    let objectPart : List String :=
      match m.Backend with
      | some be =>
        let parts : List String :=
          if be.Typ = "file" then
            ["memory-backend-file", "id=mem0", "size=" ++ toString m.Size ++ "M"]
            ++ (if be.Path ≠ "" then ["mem-path=" ++ be.Path] else [])
            ++ (if be.Share then ["share=on"] else [])
            ++ (if be.Prealloc then ["prealloc=on"] else [])
          else if be.Typ = "memfd" then
            ["memory-backend-memfd", "id=mem0", "size=" ++ toString m.Size ++ "M"]
            ++ (if be.Share then ["share=on"] else [])
          else []
        if parts ≠ [] then
          ["-object", String.intercalate "," parts, "-numa", "node,memdev=mem0"]
        else []
      | none => []
    objectPart ++ (if m.MemLock = "on" then ["-overcommit", "mem-lock=on"] else [])

/-- `VMBuilder.buildRTC` from builder.go lines 308-330. -/
def buildRTCChunk (cfg : VMConfig) : List String :=
  match cfg.RTC with
  | none => ["-rtc", "base=utc,driftfix=slew"]
  | some r =>
    let parts : List String :=
      (if r.Base ≠ "" then ["base=" ++ r.Base] else [])
      ++ (if r.Clock ≠ "" then ["clock=" ++ r.Clock] else [])
      ++ (if r.DriftFix ≠ "" then ["driftfix=" ++ r.DriftFix] else [])
    if parts ≠ [] then ["-rtc", String.intercalate "," parts] else []

/-- `VMBuilder.buildBoot` from builder.go lines 333-370. -/
def buildBootChunk (cfg : VMConfig) : List String :=
  match cfg.Boot with
  | none => []
  | some bo =>
    (if bo.Order ≠ "" ∨ bo.Menu ≠ none ∨ bo.Strict then
       let parts : List String :=
         (if bo.Order ≠ "" then ["order=" ++ bo.Order] else [])
         ++ (match bo.Menu with
             | some true => ["menu=on"]
             | some false => ["menu=off"]
             | none => [])
         ++ (if bo.Strict then ["strict=on"] else [])
       if parts ≠ [] then ["-boot", String.intercalate "," parts] else []
     else [])
    ++ (if bo.Kernel ≠ "" then ["-kernel", bo.Kernel] else [])
    ++ (if bo.Initrd ≠ "" then ["-initrd", bo.Initrd] else [])
    ++ (if bo.Append ≠ "" then ["-append", bo.Append] else [])

/-- `VMBuilder.buildSecrets` from builder.go lines 373-378. -/
def buildSecretsChunk (cfg : VMConfig) : List String :=
  (cfg.Secrets.map (fun s => buildSecretArgs (some s))).flatten

/-- `VMBuilder.buildVideoDevice` from builder.go lines 420-449. -/
def buildVideoDeviceChunk (v : Option VideoConfig) (al : pciSlotAllocator) :
    Option (List String × pciSlotAllocator) :=
  match v with
  | none => some ([], al)
  | some v =>
    if v.Typ = "" then some ([], al)
    else
      let parts : List String :=
        [v.Typ, "id=video0"]
        ++ (if v.VgaMem > 0 then ["vgamem_mb=" ++ toString v.VgaMem] else [])
        ++ (if v.Ram > 0 then ["ram_size=" ++ toString v.Ram] else [])
        ++ (if v.Vram > 0 then ["vram_size=" ++ toString v.Vram] else [])
        ++ (if v.MaxOutputs > 0 then ["max_outputs=" ++ toString v.MaxOutputs] else [])
      if v.Typ = "qxl-vga" ∨ v.Typ = "virtio-vga" ∨ v.Typ = "vga" then
        match al.Alloc with
        | none => none
        | some (addr, al') =>
          some (["-device",
                 String.intercalate "," (parts ++ ["bus=" ++ al.Bus, "addr=" ++ addr])], al')
      else
        some (["-device", String.intercalate "," parts], al)

/-- `VMBuilder.buildDisplay` from builder.go lines 381-417. -/
def buildDisplayChunk (cfg : VMConfig) (al : pciSlotAllocator) :
    Option (List String × pciSlotAllocator) :=
  match cfg.Display with
  | none => some (["-display", "none"], al)
  | some d =>
    let displayPart : List String :=
      if d.Typ = "none" then ["-display", "none"]
      else if d.Typ = "gtk" then ["-display", "gtk"]
      else if d.Typ = "sdl" then ["-display", "sdl"]
      else if d.Typ = "vnc" then
        (match d.VNC with | some v => buildVNCArgs (some v) | none => []) ++ ["-display", "none"]
      else if d.Typ = "spice" then
        (match d.Spice with | some s => buildSpiceArgs (some s) | none => [])
          ++ ["-display", "none"]
      else ["-display", "none"]
    match buildVideoDeviceChunk d.Video al with
    | none => none
    | some (videoPart, al') => some (displayPart ++ videoPart, al')

/-- `VMBuilder.buildAudio` from builder.go lines 452-486. -/
def buildAudioChunk (cfg : VMConfig) (al : pciSlotAllocator) :
    Option (List String × pciSlotAllocator) :=
  match cfg.Audio with
  | none => some ([], al)
  | some a =>
    let audiodevPart : List String :=
      if a.Backend ≠ "" ∧ a.Backend ≠ "none" then
        ["-audiodev", a.Backend ++ ",id=audio0"]
      else []
    if a.Device ≠ "" then
      match al.Alloc with
      | none => none
      | some (addr, al') =>
        let devicePart : List String :=
          ["-device", String.intercalate ","
            [a.Device, "id=sound0", "bus=" ++ al.Bus, "addr=" ++ addr]]
        let codecPart : List String :=
          if a.Codec ≠ "" ∧ (a.Device = "intel-hda" ∨ a.Device = "ich9-intel-hda") then
            ["-device", String.intercalate ","
              ([a.Codec, "bus=sound0.0"]
               ++ (if a.Backend ≠ "" ∧ a.Backend ≠ "none" then ["audiodev=audio0"] else []))]
          else []
        some (audiodevPart ++ devicePart ++ codecPart, al')
    else some (audiodevPart, al)

/-- `VMBuilder.buildControlSocket` from builder.go lines 489-497. -/
def buildControlSocketChunk (socketPath : String) : List String :=
  if socketPath = "" then []
  else
    ["-chardev", "socket,id=qmp,path=" ++ socketPath ++ ",server=on,wait=off",
     "-mon", "chardev=qmp,id=monitor,mode=control"]

/-- `VMBuilder.buildSATAController` from builder.go lines 500-517. -/
def buildSATAControllerChunk (cfg : VMConfig) (isQ35 : Bool) (al : pciSlotAllocator) :
    Option (List String × pciSlotAllocator) :=
  if cfg.CDROMs = [] then some ([], al)
  else
    match al.Alloc with
    | none => none
    | some (addr, al') =>
      if isQ35 then
        some (["-device", "ich9-ahci,id=sata0,bus=" ++ al.Bus ++ ",addr=" ++ addr], al')
      else
        some (["-device", "ahci,id=sata0,bus=" ++ al.Bus ++ ",addr=" ++ addr], al')

/-- `VMBuilder.buildDisks` from builder.go lines 520-525: folds
`buildDiskArgs` over the disks, threading the allocator.  (When called with a
live allocator, `buildDiskArgs` always returns a live allocator; the residual
`none` branch is unreachable.) -/
def buildDisksChunk : List DiskConfig → pciSlotAllocator → Option (List String × pciSlotAllocator)
  | [], al => some ([], al)
  | d :: ds, al =>
    match buildDiskArgs (some d) (some al) with
    | none => none
    | some (args, some al') =>
      match buildDisksChunk ds al' with
      | none => none
      | some (rest, al'') => some (args ++ rest, al'')
    | some (_, none) => none

/-- `VMBuilder.buildCDROMs` from builder.go lines 528-533. -/
def buildCDROMsChunk (cfg : VMConfig) : List String :=
  (cfg.CDROMs.enum.map (fun p => buildCDROMArgs (some p.2) p.1 "sata0")).flatten

/-- `VMBuilder.buildNetworks` from builder.go lines 536-541: folds
`buildNetworkArgs` over the networks, threading the allocator. -/
def buildNetworksChunk :
    List NetworkConfig → pciSlotAllocator → Option (List String × pciSlotAllocator)
  | [], al => some ([], al)
  | n :: ns, al =>
    match buildNetworkArgs (some n) (some al) with
    | none => none
    | some (args, some al') =>
      match buildNetworksChunk ns al' with
      | none => none
      | some (rest, al'') => some (args ++ rest, al'')
    | some (_, none) => none

/-- `VMBuilder.buildVirtioSerial` from builder.go lines 544-584. -/
def buildVirtioSerialChunk (cfg : VMConfig) (al : pciSlotAllocator) :
    Option (List String × pciSlotAllocator) :=
  if cfg.VirtioSerial = none ∧ cfg.Chardevs = [] then some ([], al)
  else
    match al.Alloc with
    | none => none
    | some (addr, al') =>
      let controllerParts : List String :=
        ["virtio-serial-pci", "id=virtio-serial0", "bus=" ++ al.Bus, "addr=" ++ addr]
        ++ (match cfg.VirtioSerial with
            | some vs => if vs.MaxPorts > 0 then ["max_ports=" ++ toString vs.MaxPorts] else []
            | none => [])
      let portParts : List String :=
        match cfg.VirtioSerial with
        | some vs =>
          (vs.Ports.map (fun port =>
            let portType := if port.Typ = "" then "virtserialport" else port.Typ
            ["-device", String.intercalate ","
              ([portType, "bus=virtio-serial0.0"]
               ++ (if port.Chardev ≠ "" then ["chardev=" ++ port.Chardev] else [])
               ++ (if port.Name ≠ "" then ["name=" ++ port.Name] else []))])).flatten
        | none => []
      some (["-device", String.intercalate "," controllerParts] ++ portParts, al')

/-- `VMBuilder.buildSerials` from builder.go lines 587-617. -/
def buildSerialsChunk (cfg : VMConfig) : List String :=
  (cfg.Serials.enum.map (fun p =>
    let i := p.1
    let serial := p.2
    let chardevID := "serial" ++ toString i
    let chardevParts : List String :=
      [serial.Typ, "id=" ++ chardevID]
      ++ (if serial.Path ≠ "" then ["path=" ++ serial.Path] else [])
      ++ (if serial.Server then ["server=on"] else [])
      ++ (if ¬ serial.Wait then ["wait=off"] else [])
    let device := if serial.Device = "" then "isa-serial" else serial.Device
    ["-chardev", String.intercalate "," chardevParts,
     "-device", device ++ ",chardev=" ++ chardevID ++ ",id=" ++ chardevID ++ "-device"])).flatten

/-- `VMBuilder.buildChardevs` from builder.go lines 620-625. -/
def buildChardevsChunk (cfg : VMConfig) : List String :=
  (cfg.Chardevs.map (fun c => buildChardevArgs (some c))).flatten

/-- `VMBuilder.buildUSB` from builder.go lines 628-657. -/
def buildUSBChunk (cfg : VMConfig) (al : pciSlotAllocator) :
    Option (List String × pciSlotAllocator) :=
  if cfg.USB = none ∧ cfg.USBDevices = [] then some ([], al)
  else
    let controllerType :=
      match cfg.USB with
      | some u => if u.Typ ≠ "" then u.Typ else "qemu-xhci"
      | none => "qemu-xhci"
    match al.Alloc with
    | none => none
    | some (addr, al') =>
      let devices : List String :=
        (cfg.USBDevices.enum.map (fun p =>
          ["-device", String.intercalate ","
            ([p.2.Typ, "id=usb-dev" ++ toString p.1, "bus=usb0.0"]
             ++ (if p.2.Chardev ≠ "" then ["chardev=" ++ p.2.Chardev] else []))])).flatten
      some (["-device",
             controllerType ++ ",id=usb0,bus=" ++ al.Bus ++ ",addr=" ++ addr] ++ devices, al')

/-- `VMBuilder.buildBalloon` from builder.go lines 660-669. -/
def buildBalloonChunk (cfg : VMConfig) (al : pciSlotAllocator) :
    Option (List String × pciSlotAllocator) :=
  match cfg.Balloon with
  | none => some ([], al)
  | some b =>
    if ¬ b.Enabled then some ([], al)
    else
      match al.Alloc with
      | none => none
      | some (addr, al') =>
        some (["-device",
               "virtio-balloon-pci,id=balloon0,bus=" ++ al.Bus ++ ",addr=" ++ addr], al')

/-- `VMBuilder.buildMiscDevices` from builder.go lines 672-678. -/
def buildMiscDevicesChunk (al : pciSlotAllocator) :
    Option (List String × pciSlotAllocator) :=
  match al.Alloc with
  | none => none
  | some (addr, al') =>
    some (["-object", "rng-random,id=rng0,filename=/dev/urandom",
           "-device",
           "virtio-rng-pci,rng=rng0,id=rng-dev0,bus=" ++ al.Bus ++ ",addr=" ++ addr], al')

/-- `VMBuilder.Build` from builder.go lines 134-173: the full composed
command line for a `VMConfig`, `none` when the PCI slot allocator panics. -/
def Build (cfg : VMConfig) (name socketPath : String) : Option (List String) := do
  let isQ35 := vmIsQ35 cfg
  let al0 := newPCISlotAllocator isQ35
  let namePart := if name ≠ "" then ["-name", "guest=" ++ name ++ ",debug-threads=on"] else []
  let noDefaultsPart := if cfg.NoDefaults then ["-no-user-config", "-nodefaults"] else []
  let (displayPart, al1) ← buildDisplayChunk cfg al0
  let (audioPart, al2) ← buildAudioChunk cfg al1
  let (sataPart, al3) ← buildSATAControllerChunk cfg isQ35 al2
  let (disksPart, al4) ← buildDisksChunk cfg.Disks al3
  let (networksPart, al5) ← buildNetworksChunk cfg.Networks al4
  let (vsPart, al6) ← buildVirtioSerialChunk cfg al5
  let (usbPart, al7) ← buildUSBChunk cfg al6
  let (balloonPart, al8) ← buildBalloonChunk cfg al7
  let (miscPart, _) ← buildMiscDevicesChunk al8
  pure (namePart ++ noDefaultsPart ++ buildMachineChunk cfg ++ buildEFIChunk cfg
    ++ buildCPUChunk cfg ++ buildMemoryChunk cfg ++ buildRTCChunk cfg ++ buildBootChunk cfg
    ++ buildSecretsChunk cfg ++ displayPart ++ audioPart
    ++ buildControlSocketChunk socketPath ++ sataPart ++ disksPart ++ buildCDROMsChunk cfg
    ++ networksPart ++ vsPart ++ buildSerialsChunk cfg ++ buildChardevsChunk cfg
    ++ usbPart ++ balloonPart ++ miscPart ++ cfg.ExtraArgs)

/-! ## QMP transport: the greeting reader (src/unnamed/part_001) -/

/-- The byte loop of `QMP.readGreeting` (part_001 lines 111-146): read one
byte at a time from the connection, appending to `acc`, and stop after the
first newline.  Result: the accumulated greeting bytes (handed to
`json.Unmarshal`) and the bytes still unread in the socket, which the
subsequently started event loop will consume.  `none` models a read error
(stream exhausted before any newline). -/
def readGreetingLoop : List Char → List Char → Option (List Char × List Char)
  | [], _acc => none
  | c :: rest, acc =>
    if c = '\n' then some (acc ++ [c], rest)
    else readGreetingLoop rest (acc ++ [c])

/-- `QMP.readGreeting` (part_001 lines 111-146) viewed as a consumer of the
incoming byte stream. -/
def readGreeting (stream : List Char) : Option (List Char × List Char) :=
  readGreetingLoop stream []

/-! ## Instance lifecycle (instance.go)

The `Instance` model keeps the fields the claims are about: the process
handle and recorded pid, the socket path, the transport pointer (`qmp`,
content irrelevant: `Option Unit`), the state field, whether the user
installed an `onStateChange` callback, and — as observable environment — 
whether the socket file currently exists. -/

/-- An `os.Process` handle (only the pid is observable here). -/
structure GoProcess where
  Pid : Int
  deriving Repr, DecidableEq

/-- The observable state of an `Instance` (instance.go lines 22-36). -/
structure Instance where
  name : String := ""
  pid : Int := 0
  process : Option GoProcess := none
  socketPath : String := ""
  qmp : Option Unit := none
  state : State := .Unknown
  hasStateChangeCallback : Bool := false
  socketFileExists : Bool := false
  deriving Repr, DecidableEq

/-- One invocation of the `onStateChange` callback: the argument passed and
the value `State()` returns at the time the callback runs. -/
structure StateCallbackCall where
  arg : State
  observedState : State
  deriving Repr, DecidableEq

/-- `Instance.setState` from instance.go lines 64-73: writes the state field
under the lock, then (outside the lock) invokes `onStateChange(s)` if the
state changed and a callback is set.  Because the field is written before
the callback runs, the invocation record carries the updated field as the
state the callback observes via `State()`. -/
def Instance.setState (i : Instance) (s : State) : Instance × List StateCallbackCall :=
  let old := i.state
  let i' := { i with state := s }
  if old ≠ s ∧ i.hasStateChangeCallback then
    (i', [{ arg := s, observedState := i'.state }])
  else
    (i', [])

/-- `Instance.cleanup` from instance.go lines 524-538: close and nil the
transport under its mutex, publish `Shutdown` via `setState`, then remove the
socket file when a path is known.  Returns the new instance state and the
state-change callback invocations fired. -/
def Instance.cleanup (i : Instance) : Instance × List StateCallbackCall :=
  let i1 := { i with qmp := none }
  let (i2, cbs) := i1.setState .Shutdown
  let i3 := if i.socketPath ≠ "" then { i2 with socketFileExists := false } else i2
  (i3, cbs)

/-- The SIGKILL deliveries of `Instance.ForceStop` (instance.go lines
476-487): each entry is a `syscall.Kill` target — negative means the whole
process group, positive a single pid.  With a process handle the code signals
the group `-pid` and then `process.Kill()` (SIGKILL to the pid); otherwise,
with a positive recorded pid, the pid alone; otherwise nothing. -/
def Instance.forceStopSignals (i : Instance) : List Int :=
  match i.process with
  | some p => [-(p.Pid), p.Pid]
  | none => if i.pid > 0 then [i.pid] else []

/-- `Instance.ForceStop` from instance.go lines 476-487: the signals sent,
then `cleanup`. -/
def Instance.ForceStop (i : Instance) : List Int × Instance × List StateCallbackCall :=
  let (i', cbs) := i.cleanup
  (i.forceStopSignals, i', cbs)

/-- Whether a kill-target list contains a process-group delivery. -/
def killsProcessGroup (targets : List Int) : Bool :=
  targets.any (fun t => t < 0)

/-- The outcome the transport reports for a QMP command (`qmp.Execute`):
either a reply (success) or an error — including the connection dropping
before the reply. -/
inductive ExecOutcome where
  | ok
  | err
  deriving Repr, DecidableEq

/-- `Instance.Quit` from instance.go lines 489-507, parameterised by the
outcome of `qmp.Execute("quit", nil)`.  Result: the returned error (if any),
the instance afterwards, and the callback invocations fired.  On a command
error the method returns `nil` *without* running `cleanup`; only the success
path cleans up. -/
def Instance.Quit (i : Instance) (outcome : ExecOutcome) :
    Option String × Instance × List StateCallbackCall :=
  match i.qmp with
  | none => (some "not connected", i, [])
  | some _ =>
    match outcome with
    | .err => (none, i, [])
    | .ok =>
      let (i', cbs) := i.cleanup
      (none, i', cbs)

/-! ## Socket discovery and attach-by-pid (instance.go) -/

/-- Whether `needle` occurs as a substring of `s` (Go `strings.Contains`). -/
def strContains (s needle : String) : Bool :=
  decide (needle.data <:+: s.data)

/-- The `id=` test inside `findSocketFromArgs` (instance.go lines 304-309):
the part is an `id=` option whose value contains `monitor` or `qmp`. -/
def chardevIdHit (p : String) : Bool :=
  goHasPrefix p "id=" &&
    (strContains (goDrop p 3) "monitor" || strContains (goDrop p 3) "qmp")

/-- The part scan inside `findSocketFromArgs` (instance.go lines 300-310):
remember the last `path=` value and whether any `id=` value contains
`monitor` or `qmp`. -/
def scanChardevParts : List String → String → Bool → String × Bool
  | [], socketPath, isMonitor => (socketPath, isMonitor)
  | p :: rest, socketPath, isMonitor =>
    let socketPath' := if goHasPrefix p "path=" then goDrop p 5 else socketPath
    let isMonitor' := if chardevIdHit p then true else isMonitor
    scanChardevParts rest socketPath' isMonitor'

/-- `findSocketFromArgs` from instance.go lines 290-319: scan the argument
vector for a `-chardev` whose next argument starts with `socket,`, has a
`path=` and an `id=` containing `monitor` or `qmp`; return that path, else
the empty string. -/
def findSocketFromArgs : List String → String
  | a :: b :: rest =>
    if a = "-chardev" ∧ goHasPrefix b "socket," then
      let parts := goSplit b ','

      let scanned := scanChardevParts parts.tail "" false
      if scanned.1 ≠ "" ∧ scanned.2 then scanned.1
      else findSocketFromArgs (b :: rest)
    else findSocketFromArgs (b :: rest)
  | _ => ""

/-- Whether one `-chardev` value argument is a QMP/monitor socket chardev:
it starts with `socket,` and some option has an `id=` containing `monitor`
or `qmp`.  (The formalisation of the claim's "such chardev".) -/
def isMonitorChardevArg (b : String) : Bool :=
  goHasPrefix b "socket," && (goSplit b ',').tail.any chardevIdHit

/-- Whether an argument vector contains a `-chardev` followed by a
QMP/monitor socket chardev value. -/
def hasMonitorChardev : List String → Bool
  | a :: b :: rest =>
    (decide (a = "-chardev") && isMonitorChardevArg b) || hasMonitorChardev (b :: rest)
  | _ => false

/-- Go `filepath.Base`. -/
def filepathBase (p : String) : String :=
  match ((goSplit p '/').filter (fun s => s ≠ "")).getLast? with
  | some s => s
  | none => if p = "" then "." else "/"

/-- `strings.TrimSuffix(name, ".sock")`. -/
def trimSockSuffix (s : String) : String :=
  if ".sock".data.isSuffixOf s.data then String.mk (s.data.take (s.data.length - 5)) else s

/-- `AttachContext` from instance.go lines 205-237, success path: the socket
exists and the transport connects; the instance name is the socket basename
without `.sock`; the user `onStateChange` callback starts unset (the bridge
installed on the transport calls `setState` but is not `i.onStateChange`).
The best-effort initial `query-status` may later update `state` and is not
modelled. -/
def AttachContext (socketPath : String) : Instance :=
  { name := trimSockSuffix (filepathBase socketPath),
    pid := 0,
    process := none,
    socketPath := socketPath,
    qmp := some (),
    state := .Unknown,
    hasStateChangeCallback := false,
    socketFileExists := true }

/-- The `-name` scan of `AttachByPIDContext` (instance.go lines 271-284):
at the first `-name`, take `<NAME>` from `guest=<NAME>[,...]`, or a bare
token without `=`, as the instance name; otherwise keep the current name. -/
def attachNameScan : List String → String → String
  | a :: b :: rest, nm =>
    if a = "-name" then
      if goHasPrefix b "guest=" then
        match goSplit (goDrop b 6) ',' with
        | p :: _ => p
        | [] => nm
      else if ¬ strContains b "=" then b
      else nm
    else attachNameScan (b :: rest) nm
  | _, nm => nm

/-- `AttachByPIDContext` from instance.go lines 246-287, with the process's
argument vector (`runutil.ArgsOf`) passed in: find the QMP socket from the
argv (fail when absent), attach by that socket, then install the process
handle — `os.FindProcess` never fails on Unix, so `process` is always set — 
record the pid, and override the name from `-name` when present. -/
def AttachByPID (pid : Int) (argv : List String) : Option Instance :=
  let socketPath := findSocketFromArgs argv
  if socketPath = "" then none
  else
    let inst := AttachContext socketPath
    let inst := { inst with process := some { Pid := pid }, pid := pid }
    some { inst with name := attachNameScan argv inst.name }

/-- The instance constructed by the spawn path `StartContext`
(instance.go lines 165-196), after the transport connects: a spawned
instance always holds the child's process handle.  (The best-effort initial
`query-status` may later update `state` and is not modelled.) -/
def StartedInstance (name socketPath : String) (childPid : Int) : Instance :=
  { name := name,
    pid := 0,
    process := some { Pid := childPid },
    socketPath := socketPath,
    qmp := some (),
    state := .Prelaunch,
    hasStateChangeCallback := false,
    socketFileExists := true }

/-! ## Claim proofs -/

/-- C1, evaluation at the failing input: thirty consecutive `Alloc` calls on
a Q35 allocator succeed and return the slots 3..32 — the thirtieth returns
slot 32 (formatted `0x20`), outside the valid PCI slot range `[3, 31]`, with
no panic, because the exhaustion guard only runs while scanning already-used
slots. -/
theorem C1_thirtieth_q35_alloc_returns_slot_32 :
    (allocRun 30 (newPCISlotAllocator true)).map Prod.fst =
      some [3, 4, 5, 6, 7, 8, 9, 10, 11, 12, 13, 14, 15, 16, 17, 18, 19, 20,
            21, 22, 23, 24, 25, 26, 27, 28, 29, 30, 31, 32] ∧
    ((allocRun 29 (newPCISlotAllocator true)).bind (fun p => p.2.Alloc)).map Prod.fst =
      some "0x20" :=
  ⟨rfl, rfl⟩

/-- The greeting loop consumes the stream exactly up to the first newline,
whatever has been accumulated so far. -/
theorem readGreetingLoop_consumes_first_line (pre : List Char) :
    ∀ (post acc : List Char), '\n' ∉ pre →
      readGreetingLoop (pre ++ '\n' :: post) acc = some (acc ++ pre ++ ['\n'], post) := by
  induction pre with
  | nil =>
    intro post acc _
    simp [readGreetingLoop]
  | cons c pre ih =>
    intro post acc h
    have hc : c ≠ '\n' := fun hceq => h (hceq ▸ List.mem_cons_self c pre)
    have hpre : '\n' ∉ pre := fun hm => h (List.mem_cons_of_mem c hm)
    simp only [List.cons_append, readGreetingLoop, if_neg hc]
    simpa using ih post (acc ++ [c]) hpre

/-- C3: on connect, the greeting reader consumes exactly the bytes of the
stream up to and including the first newline and no byte beyond it: for every
stream `pre ++ '\n' :: post` whose first newline terminates the greeting
line, `readGreeting` consumes `pre ++ ['\n']` and leaves exactly `post`
unread for the event loop started next. -/
theorem C3_greeting_reader_consumes_exactly_one_line
    (pre post : List Char) (h : '\n' ∉ pre) :
    readGreeting (pre ++ '\n' :: post) = some (pre ++ ['\n'], post) := by
  unfold readGreeting
  rw [readGreetingLoop_consumes_first_line pre post [] h]
  simp

/-- Witness for C3 at a concrete stream: a greeting line followed immediately
by reply bytes in the same segment leaves the reply bytes unconsumed. -/
theorem C3_witness :
    readGreeting ("g\nREPLY".data) = some ("g\n".data, "REPLY".data) :=
  C3_greeting_reader_consumes_exactly_one_line "g".data "REPLY".data (by decide)

/-- The concrete configuration of claim C4: name test-vm, 2048 MiB, host CPU
with 1 socket x 2 cores x 2 threads, q35 machine with kvm, no-defaults. -/
def c4Config : VMConfig :=
  { Name := "test-vm",
    Machine := some { Typ := "q35", Accel := "kvm" },
    CPU := some { Model := "host", Sockets := 1, Cores := 2, Threads := 2 },
    Memory := some { Size := 2048 },
    NoDefaults := true }

/-- The full argument list `Build` produces for `c4Config`. -/
def c4FullArgs : List String :=
  ["-name", "guest=test-vm,debug-threads=on", "-no-user-config", "-nodefaults",
   "-machine", "q35,accel=kvm", "-cpu", "host", "-m", "2048",
   "-smp", "4,sockets=1,cores=2,threads=2", "-rtc", "base=utc,driftfix=slew",
   "-display", "none", "-chardev", "socket,id=qmp,path=/tmp/t.sock,server=on,wait=off",
   "-mon", "chardev=qmp,id=monitor,mode=control",
   "-object", "rng-random,id=rng0,filename=/dev/urandom",
   "-device", "virtio-rng-pci,rng=rng0,id=rng-dev0,bus=pcie.0,addr=0x3"]

/-- The nine flag/value pairs claim C4 requires, in order. -/
def c4ExpectedSubseq : List String :=
  ["-name", "guest=test-vm,debug-threads=on", "-no-user-config", "-nodefaults",
   "-machine", "q35,accel=kvm", "-cpu", "host", "-m", "2048",
   "-smp", "4,sockets=1,cores=2,threads=2",
   "-chardev", "socket,id=qmp,path=/tmp/t.sock,server=on,wait=off",
   "-mon", "chardev=qmp,id=monitor,mode=control"]

/-- C4: `Build` on the claim's concrete configuration with socket path
`/tmp/t.sock` produces `c4FullArgs`, which contains the nine required
flag/value pairs in the required relative order. -/
theorem C4_composer_baseline :
    Build c4Config "test-vm" "/tmp/t.sock" = some c4FullArgs ∧
    List.Sublist c4ExpectedSubseq c4FullArgs :=
  ⟨rfl, by decide⟩

/-- What one `cleanup` call does to the instance and which callback
invocations it fires. -/
theorem cleanup_spec (i : Instance) :
    (i.cleanup).1 =
      { i with
        qmp := none
        state := .Shutdown
        socketFileExists := (if i.socketPath ≠ "" then false else i.socketFileExists) } ∧
    (i.cleanup).2 = (if i.state ≠ State.Shutdown ∧ i.hasStateChangeCallback = true then
        [{ arg := .Shutdown, observedState := .Shutdown }] else []) := by
  unfold Instance.cleanup Instance.setState
  dsimp only
  split_ifs <;> simp_all

/-- C9: `cleanup` is idempotent — a second `cleanup` leaves the instance
exactly as the first left it (transport nil, state `Shutdown`, socket file
removed when a path is known) and fires no state-change callback. -/
theorem C9_cleanup_idempotent (i : Instance) :
    (Instance.cleanup (i.cleanup).1).1 = (i.cleanup).1 ∧
    (Instance.cleanup (i.cleanup).1).2 = [] := by
  constructor
  · rw [(cleanup_spec ((i.cleanup).1)).1, (cleanup_spec i).1]
    split_ifs <;> simp_all
  · rw [(cleanup_spec ((i.cleanup).1)).2, (cleanup_spec i).1]
    split_ifs <;> simp_all

/-- C10: `setState s` leaves the state field equal to `s`; the callback fires
exactly when the state changed and a callback is installed; and every
invocation passes `s` and observes the already-updated field (the write
happens before the callback). -/
theorem C10_setState_publishes_then_notifies (i : Instance) (s : State) :
    (i.setState s).1.state = s ∧
    ((i.setState s).2 ≠ [] ↔ (i.state ≠ s ∧ i.hasStateChangeCallback = true)) ∧
    (∀ c ∈ (i.setState s).2, c.arg = s ∧ c.observedState = s) := by
  unfold Instance.setState
  dsimp only
  split_ifs with hc <;> simp_all

/-- The example argument vector of claims C2/C8: a chardev whose id
`charmonitor` contains `monitor`. -/
def exampleMonitorArgv : List String :=
  ["qemu-system-x86_64",
   "-chardev", "socket,id=charmonitor,path=/run/qemu/mon.sock,server=on,wait=off",
   "-mon", "chardev=charmonitor,mode=control"]

/-- C2, counterexample: attaching by pid installs a process handle
(`os.FindProcess` on Unix), so `ForceStop` on the pid-attached instance
sends SIGKILL to the process group `-1234` (and then to the pid) — not to
the pid alone as the claim states. -/
theorem C2_counterexample :
    (AttachByPID 1234 exampleMonitorArgv).map (fun i => i.forceStopSignals) =
      some [-1234, 1234] ∧
    (AttachByPID 1234 exampleMonitorArgv).map (fun i => killsProcessGroup i.forceStopSignals) =
      some true :=
  ⟨rfl, rfl⟩

/-- C2 as amended: `ForceStop` SIGKILLs the process group and then the pid
whenever a process handle is present — which includes pid-attached instances,
since `AttachByPID` always installs a handle — and the pid alone only when no
handle exists but a positive pid is recorded; nothing when neither; `cleanup`
follows in every case; spawned instances always hold a handle. -/
theorem C2_forcestop_signals (i : Instance) :
    (∀ p, i.process = some p →
      (i.ForceStop).1 = [-(p.Pid), p.Pid] ∧
      (p.Pid > 0 → killsProcessGroup (i.ForceStop).1 = true)) ∧
    (i.process = none → i.pid > 0 →
      (i.ForceStop).1 = [i.pid] ∧ killsProcessGroup (i.ForceStop).1 = false) ∧
    (i.process = none → i.pid ≤ 0 → (i.ForceStop).1 = []) ∧
    (i.ForceStop).2.1 = (i.cleanup).1 ∧
    (∀ name sp pid, (StartedInstance name sp pid).process = some { Pid := pid }) ∧
    (∀ pid argv inst, AttachByPID pid argv = some inst → inst.process = some { Pid := pid }) := by
  refine ⟨?_, ?_, ?_, rfl, fun _ _ _ => rfl, ?_⟩
  · intro p hp
    unfold Instance.ForceStop Instance.forceStopSignals
    rw [hp]
    refine ⟨rfl, ?_⟩
    intro hpos
    simp only [killsProcessGroup, List.any_cons, List.any_nil, Bool.or_false,
      Bool.or_eq_true, decide_eq_true_eq]
    omega
  · intro hp hpid
    unfold Instance.ForceStop Instance.forceStopSignals
    rw [hp]
    simp only [if_pos hpid, killsProcessGroup, List.any_cons, List.any_nil, Bool.or_false,
      decide_eq_true_eq, true_and]
    simp only [decide_eq_false_iff_not]
    omega
  · intro hp hpid
    unfold Instance.ForceStop Instance.forceStopSignals
    rw [hp]
    simp
    omega
  · intro pid argv inst h
    unfold AttachByPID at h
    dsimp only at h
    split at h
    · exact absurd h (by simp)
    · simp only [Option.some.injEq] at h
      subst h
      rfl

/-- Witness for C2 at a concrete spawned instance. -/
theorem C2_witness :
    ((StartedInstance "vm" "/tmp/vm.sock" 77).ForceStop).1 = [-77, 77] :=
  (((C2_forcestop_signals (StartedInstance "vm" "/tmp/vm.sock" 77)).1) { Pid := 77 } rfl).1

/-- A connected running instance used by the C6 theorems. -/
def c6Instance : Instance :=
  { name := "vm0"
    socketPath := "/tmp/x.sock"
    qmp := some ()
    state := .Running
    hasStateChangeCallback := true
    socketFileExists := true }

/-- C6, counterexample: on a connected instance whose `quit` command errors
(e.g. disconnect before the reply), `Quit` returns success but performs no
cleanup — the transport is not nulled, the state is not `Shutdown`, and the
socket file is still present. -/
theorem C6_counterexample :
    (c6Instance.Quit .err).1 = none ∧
    (c6Instance.Quit .err).2.1 = c6Instance ∧
    c6Instance.qmp = some () ∧
    (c6Instance.Quit .err).2.1.qmp ≠ none ∧
    (c6Instance.Quit .err).2.1.state ≠ State.Shutdown ∧
    (c6Instance.Quit .err).2.1.socketFileExists = true :=
  ⟨rfl, rfl, rfl, by decide, by decide, rfl⟩

/-- C6 as amended: on a connected instance `Quit` returns success whether
the command succeeds or errors, but performs `cleanup` (transport nulled,
state `Shutdown`, socket file removed when a path is known) only when the
command succeeds; on error the instance is left untouched. -/
theorem C6_quit_success_cleanup_only_on_reply (i : Instance) (r : ExecOutcome)
    (h : i.qmp = some ()) :
    (i.Quit r).1 = none ∧
    (r = .err → (i.Quit r).2.1 = i ∧ (i.Quit r).2.2 = []) ∧
    (r = .ok → (i.Quit r).2.1 = (i.cleanup).1 ∧ (i.Quit r).2.1.qmp = none ∧
      (i.Quit r).2.1.state = State.Shutdown ∧
      (i.socketPath ≠ "" → (i.Quit r).2.1.socketFileExists = false)) := by
  unfold Instance.Quit
  rw [h]
  cases r with
  | err =>
    refine ⟨rfl, fun _ => ⟨rfl, rfl⟩, ?_⟩
    intro hr
    exact nomatch hr
  | ok =>
    refine ⟨rfl, ?_, ?_⟩
    · intro hr
      exact nomatch hr
    intro _
    refine ⟨rfl, ?_, ?_, ?_⟩
    · show (i.cleanup).1.qmp = none
      rw [(cleanup_spec i).1]
    · show (i.cleanup).1.state = State.Shutdown
      rw [(cleanup_spec i).1]
    · intro hsp
      show (i.cleanup).1.socketFileExists = false
      rw [(cleanup_spec i).1]
      simp [hsp]

/-- Witness for C6 at a concrete connected instance with a successful
command. -/
theorem C6_witness :
    (c6Instance.Quit .ok).1 = none ∧ (c6Instance.Quit .ok).2.1.state = State.Shutdown :=
  ⟨(C6_quit_success_cleanup_only_on_reply c6Instance .ok rfl).1,
   (((C6_quit_success_cleanup_only_on_reply c6Instance .ok rfl).2.2) rfl).2.2.1⟩

/-- The part scan's monitor flag is true iff it started true or some part is
an `id=` option whose value contains `monitor` or `qmp`. -/
theorem scanChardevParts_snd (ps : List String) :
    ∀ sp im, (scanChardevParts ps sp im).2 = (im || ps.any chardevIdHit) := by
  induction ps with
  | nil => intro sp im; simp [scanChardevParts]
  | cons p rest ih =>
    intro sp im
    simp only [scanChardevParts]
    by_cases hp : chardevIdHit p = true
    · simp [hp, ih]
    · simp only [Bool.not_eq_true] at hp
      simp [hp, ih]

/-- The `path=` value a chardev option string carries (the last `path=`
among its comma-separated options, as the scan records it); empty when the
chardev has no `path=` option. -/
def chardevPathValue (b : String) : String :=
  (scanChardevParts (goSplit b ',').tail "" false).1

/-- The discovery rule exactly as claim C8 states it, totalized: the `path=`
value of the first `-chardev` argument of the form `socket,...` whose `id=`
contains `monitor` or `qmp` (empty when that chardev carries no `path=`
option), and the empty string when no such chardev exists.  Stated from the
claim's words, for comparison with `findSocketFromArgs`. -/
def specFirstMonitorIdPath : List String → String
  | a :: b :: rest =>
    if a = "-chardev" ∧ isMonitorChardevArg b = true then chardevPathValue b
    else specFirstMonitorIdPath (b :: rest)
  | _ => ""

/-- The amended discovery rule: the `path=` value of the first `-chardev`
argument of the form `socket,...` whose `id=` contains `monitor` or `qmp`
and which also carries a non-empty `path=` option; matching chardevs without
a path are skipped. -/
def specFirstMonitorIdWithPath : List String → String
  | a :: b :: rest =>
    if a = "-chardev" ∧ isMonitorChardevArg b = true ∧ chardevPathValue b ≠ "" then
      chardevPathValue b
    else specFirstMonitorIdWithPath (b :: rest)
  | _ => ""

/-- `findSocketFromArgs` returns, for every argv, the path of the first
monitor/qmp socket chardev that also carries a `path=` option. -/
theorem findSocketFromArgs_eq_spec :
    ∀ args, findSocketFromArgs args = specFirstMonitorIdWithPath args := by
  intro args
  induction args with
  | nil => rfl
  | cons a rest ih =>
    cases rest with
    | nil => rfl
    | cons b rest2 =>
      simp only [findSocketFromArgs, specFirstMonitorIdWithPath]
      by_cases hc : a = "-chardev" ∧ goHasPrefix b "socket," = true
      · by_cases hfound : (scanChardevParts (goSplit b ',').tail "" false).1 ≠ "" ∧
            (scanChardevParts (goSplit b ',').tail "" false).2 = true
        · have hmon : isMonitorChardevArg b = true := by
            simp only [isMonitorChardevArg, Bool.and_eq_true]
            refine ⟨hc.2, ?_⟩
            have h2 := hfound.2
            rw [scanChardevParts_snd] at h2
            simpa using h2
          rw [if_pos hc, if_pos hfound, if_pos ⟨hc.1, hmon, hfound.1⟩]
          rfl
        · rw [if_pos hc, if_neg hfound, if_neg ?hn]
          · exact ih
          case hn =>
            intro hcond
            apply hfound
            refine ⟨hcond.2.2, ?_⟩
            rw [scanChardevParts_snd]
            have hm := hcond.2.1
            simp only [isMonitorChardevArg, Bool.and_eq_true] at hm
            simpa using hm.2
      · rw [if_neg hc, if_neg ?hn2]
        · exact ih
        case hn2 =>
          intro hcond
          apply hc
          refine ⟨hcond.1, ?_⟩
          have hm := hcond.2.1
          simp only [isMonitorChardevArg, Bool.and_eq_true] at hm
          exact hm.1

/-- When no monitor/qmp socket chardev is present at all, the amended rule
yields the empty string. -/
theorem specFirstMonitorIdWithPath_empty :
    ∀ args, hasMonitorChardev args = false → specFirstMonitorIdWithPath args = "" := by
  intro args
  induction args with
  | nil => intro _; rfl
  | cons a rest ih =>
    cases rest with
    | nil => intro _; rfl
    | cons b rest2 =>
      intro h
      simp only [hasMonitorChardev, Bool.or_eq_false_iff, Bool.and_eq_false_iff] at h
      obtain ⟨hpair, htail⟩ := h
      simp only [specFirstMonitorIdWithPath]
      rw [if_neg ?hn3]
      · exact ih htail
      case hn3 =>
        intro hcond
        rcases hpair with hne | hmon
        · simp [hcond.1] at hne
        · exact absurd hcond.2.1 (by simp [hmon])

/-- C8 as amended: for every argv, socket discovery returns the `path=`
value of the first `-chardev` of the form `socket,...` whose `id=` contains
`monitor` or `qmp` and which also carries a `path=` option (matching
chardevs without one are skipped); the claim's example argv yields
`/run/qemu/mon.sock`; an argv with no monitor/qmp socket chardev yields the
empty string and `AttachByPID` then fails. -/
theorem C8_socket_discovery_first_with_path :
    (∀ args, findSocketFromArgs args = specFirstMonitorIdWithPath args) ∧
    findSocketFromArgs exampleMonitorArgv = "/run/qemu/mon.sock" ∧
    (∀ args, hasMonitorChardev args = false → findSocketFromArgs args = "") ∧
    (∀ (pid : Int) args, hasMonitorChardev args = false → AttachByPID pid args = none) := by
  have key : ∀ args, hasMonitorChardev args = false → findSocketFromArgs args = "" :=
    fun args h => (findSocketFromArgs_eq_spec args).trans
      (specFirstMonitorIdWithPath_empty args h)
  refine ⟨findSocketFromArgs_eq_spec, rfl, key, ?_⟩
  intro pid args h
  unfold AttachByPID
  rw [key args h]
  rfl

/-- An argv whose first monitor/qmp socket chardev (id `qmp`) carries no
`path=` option, followed by a second one (id `charmonitor`) with
`path=/x`. -/
def c8CexArgv : List String :=
  ["-chardev", "socket,id=qmp,host=h,port=1",
   "-chardev", "socket,id=charmonitor,path=/x,server=on,wait=off"]

/-- C8, counterexample: the first `-chardev socket,...` whose `id=` matches
is `socket,id=qmp,host=h,port=1`, which has no `path=` value — the claim as
stated prescribes the empty string (attach fails) — but the code skips it
and returns the later chardev's path `/x`, and `AttachByPID` succeeds. -/
theorem C8_counterexample :
    isMonitorChardevArg "socket,id=qmp,host=h,port=1" = true ∧
    specFirstMonitorIdPath c8CexArgv = "" ∧
    findSocketFromArgs c8CexArgv = "/x" ∧
    findSocketFromArgs c8CexArgv ≠ specFirstMonitorIdPath c8CexArgv ∧
    AttachByPID 7 c8CexArgv ≠ none :=
  ⟨rfl, rfl, rfl, by decide, by decide⟩

/-- An argv whose only chardev id (`charserial0`) contains neither `monitor`
nor `qmp`. -/
def noMonitorArgv : List String :=
  ["qemu-system-x86_64", "-chardev", "socket,id=charserial0,path=/x.sock", "-display", "none"]

/-- Witness for C8 at a concrete argv without a monitor/qmp chardev. -/
theorem C8_witness :
    findSocketFromArgs noMonitorArgv = "" ∧ AttachByPID 55 noMonitorArgv = none :=
  ⟨C8_socket_discovery_first_with_path.2.2.1 noMonitorArgv (by rfl),
   C8_socket_discovery_first_with_path.2.2.2 55 noMonitorArgv (by rfl)⟩

/-- C7, counterexample: with the empty socket path, `Build` emits no QMP
chardev/monitor pair at all (`buildControlSocket` returns early), so the
claim's "every socket path" fails at `""`. -/
theorem C7_counterexample :
    Build {} "x" "" =
      some ["-name", "guest=x,debug-threads=on", "-machine", "q35,accel=kvm",
            "-cpu", "host", "-m", "512", "-rtc", "base=utc,driftfix=slew",
            "-display", "none", "-object", "rng-random,id=rng0,filename=/dev/urandom",
            "-device", "virtio-rng-pci,rng=rng0,id=rng-dev0,bus=pcie.0,addr=0x3"] ∧
    "-mon" ∉ ["-name", "guest=x,debug-threads=on", "-machine", "q35,accel=kvm",
            "-cpu", "host", "-m", "512", "-rtc", "base=utc,driftfix=slew",
            "-display", "none", "-object", "rng-random,id=rng0,filename=/dev/urandom",
            "-device", "virtio-rng-pci,rng=rng0,id=rng-dev0,bus=pcie.0,addr=0x3"] ∧
    "-chardev" ∉ ["-name", "guest=x,debug-threads=on", "-machine", "q35,accel=kvm",
            "-cpu", "host", "-m", "512", "-rtc", "base=utc,driftfix=slew",
            "-display", "none", "-object", "rng-random,id=rng0,filename=/dev/urandom",
            "-device", "virtio-rng-pci,rng=rng0,id=rng-dev0,bus=pcie.0,addr=0x3"] :=
  ⟨rfl, by decide, by decide⟩

/-- C7 as amended: for every configuration and every non-empty socket path,
whenever `Build` returns an argument list it contains the adjacent pair
`-chardev socket,id=qmp,path=<socket_path>,server=on,wait=off` followed by
`-mon chardev=qmp,id=monitor,mode=control`. -/
theorem C7_control_socket_pair (cfg : VMConfig) (name socketPath : String)
    (args : List String) (hsp : socketPath ≠ "")
    (h : Build cfg name socketPath = some args) :
    ∃ pre post, args = pre ++
      ["-chardev", "socket,id=qmp,path=" ++ socketPath ++ ",server=on,wait=off",
       "-mon", "chardev=qmp,id=monitor,mode=control"] ++ post := by
  simp only [Build, Option.bind_eq_bind, Option.bind_eq_some, Option.pure_def,
    Option.some.injEq] at h
  obtain ⟨⟨d1, a1⟩, h1, ⟨d2, a2⟩, h2, ⟨d3, a3⟩, h3, ⟨d4, a4⟩, h4, ⟨d5, a5⟩, h5,
    ⟨d6, a6⟩, h6, ⟨d7, a7⟩, h7, ⟨d8, a8⟩, h8, ⟨d9, a9⟩, h9, hargs⟩ := h
  subst hargs
  refine ⟨(if name ≠ "" then ["-name", "guest=" ++ name ++ ",debug-threads=on"] else [])
      ++ (if cfg.NoDefaults then ["-no-user-config", "-nodefaults"] else [])
      ++ buildMachineChunk cfg ++ buildEFIChunk cfg ++ buildCPUChunk cfg
      ++ buildMemoryChunk cfg ++ buildRTCChunk cfg ++ buildBootChunk cfg
      ++ buildSecretsChunk cfg ++ d1 ++ d2,
    d3 ++ d4 ++ buildCDROMsChunk cfg ++ d5 ++ d6 ++ buildSerialsChunk cfg
      ++ buildChardevsChunk cfg ++ d7 ++ d8 ++ d9 ++ cfg.ExtraArgs, ?_⟩
  simp only [buildControlSocketChunk, if_neg hsp]
  simp [List.append_assoc]

/-- Witness for C7 at a concrete configuration and socket path. -/
theorem C7_witness :
    ∃ pre post,
      ["-name", "guest=x,debug-threads=on", "-machine", "q35,accel=kvm",
       "-cpu", "host", "-m", "512", "-rtc", "base=utc,driftfix=slew",
       "-display", "none", "-chardev", "socket,id=qmp,path=/tmp/w.sock,server=on,wait=off",
       "-mon", "chardev=qmp,id=monitor,mode=control",
       "-object", "rng-random,id=rng0,filename=/dev/urandom",
       "-device", "virtio-rng-pci,rng=rng0,id=rng-dev0,bus=pcie.0,addr=0x3"] = pre ++
      ["-chardev", "socket,id=qmp,path=" ++ "/tmp/w.sock" ++ ",server=on,wait=off",
       "-mon", "chardev=qmp,id=monitor,mode=control"] ++ post :=
  C7_control_socket_pair {} "x" "/tmp/w.sock" _ (by decide) rfl

/-- The shape of `buildDiskArgs` output when no throttle layer is
configured: the backend's blockdev arguments followed by one `-device` whose
`drive=` references `<id>-iscsi` for the iscsi backend and `<id>-format`
otherwise. -/
theorem buildDiskArgs_shape (cfg : DiskConfig) (backend : DiskBackend)
    (pa : Option pciSlotAllocator) (res : List String) (pa' : Option pciSlotAllocator)
    (hb : cfg.Backend = some backend) (ht : cfg.Throttle = none) (hid : cfg.ID ≠ "")
    (h : buildDiskArgs (some cfg) pa = some (res, pa')) :
    ∃ suffix, res = backend.BuildBlockdevArgs cfg.ID ++
      ["-device",
       diskDeviceType (if cfg.Interface = "" then "virtio" else cfg.Interface)
         ++ ",drive="
         ++ (if backend.Typ = "iscsi" then cfg.ID ++ "-iscsi" else cfg.ID ++ "-format")
         ++ ",id=" ++ cfg.ID ++ "-device" ++ suffix] := by
  simp only [buildDiskArgs, hb, ht, throttleSet] at h
  rw [if_neg hid] at h
  cases pa with
  | none =>
    simp only [Option.some.injEq, Prod.mk.injEq] at h
    obtain ⟨hres, _⟩ := h
    subst hres
    refine ⟨(if cfg.BootIndex > 0 then ",bootindex=" ++ toString cfg.BootIndex else "")
      ++ (if cfg.Serial ≠ "" then ",serial=" ++ cfg.Serial else ""), ?_⟩
    simp [String.append_assoc]
  | some al =>
    dsimp only at h
    by_cases hifc : (if cfg.Interface = "" then "virtio" else cfg.Interface) = "virtio" ∨
        (if cfg.Interface = "" then "virtio" else cfg.Interface) = "nvme"
    · rw [if_pos hifc] at h
      cases hAl : al.Alloc with
      | none =>
        rw [hAl] at h
        exact absurd h (by simp)
      | some p =>
        obtain ⟨addr, al2⟩ := p
        rw [hAl] at h
        simp only [Option.some.injEq, Prod.mk.injEq] at h
        obtain ⟨hres, _⟩ := h
        subst hres
        refine ⟨",bus=" ++ al.Bus ++ ",addr=" ++ addr
          ++ (if cfg.BootIndex > 0 then ",bootindex=" ++ toString cfg.BootIndex else "")
          ++ (if cfg.Serial ≠ "" then ",serial=" ++ cfg.Serial else ""), ?_⟩
        simp [String.append_assoc]
        rw [show ("-device,bus=" : String) = "-device" ++ ",bus=" from rfl,
          String.append_assoc]
    · rw [if_neg hifc] at h
      simp only [Option.some.injEq, Prod.mk.injEq] at h
      obtain ⟨hres, _⟩ := h
      subst hres
      refine ⟨(if cfg.BootIndex > 0 then ",bootindex=" ++ toString cfg.BootIndex else "")
        ++ (if cfg.Serial ≠ "" then ",serial=" ++ cfg.Serial else ""), ?_⟩
      simp [String.append_assoc]

/-- A concrete iSCSI disk configuration without throttle. -/
def c5IscsiDisk : DiskConfig :=
  { ID := "d0", Backend := some (.iscsi { Portal := "p", Target := "t", Lun := 0 }) }

/-- The arguments `buildDiskArgs` emits for `c5IscsiDisk`. -/
def c5IscsiArgs : List String :=
  ["-blockdev",
   "\x7b\"cache\":\x7b\"direct\":true,\"no-flush\":false\x7d,\"discard\":\"unmap\",\"driver\":\"iscsi\",\"lun\":0,\"node-name\":\"d0-iscsi\",\"portal\":\"p\",\"target\":\"t\",\"transport\":\"tcp\"\x7d",
   "-device", "virtio-blk-pci,drive=d0-iscsi,id=d0-device,bus=pcie.0,addr=0x3"]

set_option maxRecDepth 4000 in
/-- C5, counterexample: for an iSCSI disk the emitted arguments contain a
single blockdev node `d0-iscsi` and no `d0-format` node anywhere, and the
device line references `drive=d0-iscsi` — contradicting the claim that every
one of file/nbd/rbd/iscsi gets a `<id>-format` node referenced by the device
line. -/
theorem C5_counterexample :
    buildDiskArgs (some c5IscsiDisk) (some (newPCISlotAllocator true)) =
      some (c5IscsiArgs, some { nextSlot := 4, used := [3, 0, 1, 2], bus := "pcie.0" }) ∧
    c5IscsiArgs.all (fun s => !(strContains s "d0-format")) = true ∧
    strContains "virtio-blk-pci,drive=d0-iscsi,id=d0-device,bus=pcie.0,addr=0x3"
      "drive=d0-iscsi" = true :=
  ⟨rfl, by decide, by decide⟩

/-- C5 as amended: with no throttle layer, file/nbd/rbd disks emit a backend
blockdev node named `<id>-<backend>` plus a format node `<id>-format` whose
driver defaults to `raw` (is always `raw` for nbd/rbd) and whose `file` field
references the backend node, the device line referencing `drive=<id>-format`;
an iscsi disk emits only the backend node `<id>-iscsi` and its device line
references `drive=<id>-iscsi`. -/
theorem C5_blockdev_layers :
    (∀ (f : FileDiskBackend) (cfg : DiskConfig) (pa : Option pciSlotAllocator)
        (res : List String) (pa' : Option pciSlotAllocator),
        cfg.Backend = some (.file f) → cfg.Throttle = none → cfg.ID ≠ "" →
        buildDiskArgs (some cfg) pa = some (res, pa') →
        (∃ suffix, res =
          ["-blockdev", jsonMarshal (f.fileOpts cfg.ID),
           "-blockdev", jsonMarshal (f.formatOpts cfg.ID),
           "-device",
           diskDeviceType (if cfg.Interface = "" then "virtio" else cfg.Interface)
             ++ ",drive=" ++ (cfg.ID ++ "-format") ++ ",id=" ++ cfg.ID ++ "-device" ++ suffix]) ∧
        ("node-name", JValue.jstr (cfg.ID ++ "-file")) ∈ f.fileOpts cfg.ID ∧
        ("driver", JValue.jstr (if f.Format = "" then "raw" else f.Format)) ∈ f.formatOpts cfg.ID ∧
        ("file", JValue.jstr (cfg.ID ++ "-file")) ∈ f.formatOpts cfg.ID ∧
        ("node-name", JValue.jstr (cfg.ID ++ "-format")) ∈ f.formatOpts cfg.ID) ∧
    (∀ (n : NBDDiskBackend) (cfg : DiskConfig) (pa : Option pciSlotAllocator)
        (res : List String) (pa' : Option pciSlotAllocator),
        cfg.Backend = some (.nbd n) → cfg.Throttle = none → cfg.ID ≠ "" →
        buildDiskArgs (some cfg) pa = some (res, pa') →
        (∃ suffix, res =
          ["-blockdev", jsonMarshal (n.nbdOpts cfg.ID),
           "-blockdev", jsonMarshal (n.formatOpts cfg.ID),
           "-device",
           diskDeviceType (if cfg.Interface = "" then "virtio" else cfg.Interface)
             ++ ",drive=" ++ (cfg.ID ++ "-format") ++ ",id=" ++ cfg.ID ++ "-device" ++ suffix]) ∧
        ("node-name", JValue.jstr (cfg.ID ++ "-nbd")) ∈ n.nbdOpts cfg.ID ∧
        ("driver", JValue.jstr "raw") ∈ n.formatOpts cfg.ID ∧
        ("file", JValue.jstr (cfg.ID ++ "-nbd")) ∈ n.formatOpts cfg.ID ∧
        ("node-name", JValue.jstr (cfg.ID ++ "-format")) ∈ n.formatOpts cfg.ID) ∧
    (∀ (r : RBDDiskBackend) (cfg : DiskConfig) (pa : Option pciSlotAllocator)
        (res : List String) (pa' : Option pciSlotAllocator),
        cfg.Backend = some (.rbd r) → cfg.Throttle = none → cfg.ID ≠ "" →
        buildDiskArgs (some cfg) pa = some (res, pa') →
        (∃ suffix, res =
          ["-blockdev", jsonMarshal (r.rbdOpts cfg.ID),
           "-blockdev", jsonMarshal (r.formatOpts cfg.ID),
           "-device",
           diskDeviceType (if cfg.Interface = "" then "virtio" else cfg.Interface)
             ++ ",drive=" ++ (cfg.ID ++ "-format") ++ ",id=" ++ cfg.ID ++ "-device" ++ suffix]) ∧
        ("node-name", JValue.jstr (cfg.ID ++ "-rbd")) ∈ r.rbdOpts cfg.ID ∧
        ("driver", JValue.jstr "raw") ∈ r.formatOpts cfg.ID ∧
        ("file", JValue.jstr (cfg.ID ++ "-rbd")) ∈ r.formatOpts cfg.ID ∧
        ("node-name", JValue.jstr (cfg.ID ++ "-format")) ∈ r.formatOpts cfg.ID) ∧
    (∀ (b : ISCSIDiskBackend) (cfg : DiskConfig) (pa : Option pciSlotAllocator)
        (res : List String) (pa' : Option pciSlotAllocator),
        cfg.Backend = some (.iscsi b) → cfg.Throttle = none → cfg.ID ≠ "" →
        buildDiskArgs (some cfg) pa = some (res, pa') →
        (∃ suffix, res =
          ["-blockdev", jsonMarshal (b.iscsiOpts cfg.ID),
           "-device",
           diskDeviceType (if cfg.Interface = "" then "virtio" else cfg.Interface)
             ++ ",drive=" ++ (cfg.ID ++ "-iscsi") ++ ",id=" ++ cfg.ID ++ "-device" ++ suffix]) ∧
        ("node-name", JValue.jstr (cfg.ID ++ "-iscsi")) ∈ b.iscsiOpts cfg.ID) := by
  refine ⟨?_, ?_, ?_, ?_⟩
  · intro f cfg pa res pa' hb ht hid h
    refine ⟨buildDiskArgs_shape cfg (.file f) pa res pa' hb ht hid h, ?_, ?_, ?_, ?_⟩
    · simp [FileDiskBackend.fileOpts]
    · simp [FileDiskBackend.formatOpts]
    · simp [FileDiskBackend.formatOpts]
    · simp [FileDiskBackend.formatOpts]
  · intro n cfg pa res pa' hb ht hid h
    refine ⟨buildDiskArgs_shape cfg (.nbd n) pa res pa' hb ht hid h, ?_, ?_, ?_, ?_⟩
    · simp [NBDDiskBackend.nbdOpts]
    · simp [NBDDiskBackend.formatOpts]
    · simp [NBDDiskBackend.formatOpts]
    · simp [NBDDiskBackend.formatOpts]
  · intro r cfg pa res pa' hb ht hid h
    refine ⟨buildDiskArgs_shape cfg (.rbd r) pa res pa' hb ht hid h, ?_, ?_, ?_, ?_⟩
    · simp [RBDDiskBackend.rbdOpts]
    · simp [RBDDiskBackend.formatOpts]
    · simp [RBDDiskBackend.formatOpts]
    · simp [RBDDiskBackend.formatOpts]
  · intro b cfg pa res pa' hb ht hid h
    refine ⟨buildDiskArgs_shape cfg (.iscsi b) pa res pa' hb ht hid h, ?_⟩
    simp [ISCSIDiskBackend.iscsiOpts]

/-- A concrete file backend for the C5 witness. -/
def c5FileBackend : FileDiskBackend := { Path := "/img.qcow2", Format := "qcow2" }

/-- A concrete file-backed disk configuration for the C5 witness. -/
def c5FileDisk : DiskConfig := { ID := "disk0", Backend := some (.file c5FileBackend) }

/-- Witness for C5 at a concrete file-backed disk (no allocator). -/
theorem C5_witness :
    (∃ suffix,
      ["-blockdev", jsonMarshal (c5FileBackend.fileOpts "disk0"),
       "-blockdev", jsonMarshal (c5FileBackend.formatOpts "disk0"),
       "-device", "virtio-blk-pci,drive=disk0-format,id=disk0-device"] =
      ["-blockdev", jsonMarshal (c5FileBackend.fileOpts "disk0"),
       "-blockdev", jsonMarshal (c5FileBackend.formatOpts "disk0"),
       "-device",
       diskDeviceType (if c5FileDisk.Interface = "" then "virtio" else c5FileDisk.Interface)
         ++ ",drive=" ++ ("disk0" ++ "-format") ++ ",id=" ++ "disk0" ++ "-device" ++ suffix]) ∧
    ("node-name", JValue.jstr ("disk0" ++ "-format")) ∈ c5FileBackend.formatOpts "disk0" :=
  have hmain := C5_blockdev_layers.1 c5FileBackend c5FileDisk none
    ["-blockdev", jsonMarshal (c5FileBackend.fileOpts "disk0"),
     "-blockdev", jsonMarshal (c5FileBackend.formatOpts "disk0"),
     "-device", "virtio-blk-pci,drive=disk0-format,id=disk0-device"] none
    rfl rfl (by decide) rfl
  ⟨hmain.1, hmain.2.2.2.2⟩

end Qemuctl





